import Mathlib

/-!
Verification development for the pyTSEB orchestration layer
(`pyTSEB/PyTSEB.py`).  The file shallowly embeds the class `PyTSEB`:
its per-element flux dispatcher `run_TSEB`, the input-boundary checks of
`run_TSEB_point_series_array` (`_required_data_present`, date-index
composition) and of `run_TSEB_local_image` (`_get_input_structure`, the
field-reading loop, `_open_GDAL_image` on the soil-heat-flux parameter),
and the mutation of `self.G_form` / `self.res_params` across calls.

Array cells are modelled by `RVal`: an exact rational for a finite
floating-point value, plus the IEEE special values `+inf`, `-inf` and
`NaN` with numpy's propagation rules (rounding is not modelled; the
special-value algebra is exact).  Per-element arrays are functions
`Fin n → RVal`.  The external collaborator modules (`TSEB`, the
radiation, resistance and clumping-index helpers) are out of scope of
the source package and are modelled as opaque element-wise pure
functions gathered in a `Collab` record, exactly as the design document
treats them.
-/

/-- A numpy double: a finite rational, an infinity, or NaN.
Signed zero is collapsed onto `fin 0` (noted where it matters). -/
inductive RVal where
  | fin : ℚ → RVal
  | pinf : RVal
  | ninf : RVal
  | nan : RVal
deriving DecidableEq, Repr

namespace RVal

/-- IEEE addition (numpy `+`): NaN propagates, `inf + (-inf) = NaN`. -/
def add : RVal → RVal → RVal
  | nan, _ => nan
  | _, nan => nan
  | fin a, fin b => fin (a + b)
  | pinf, ninf => nan
  | ninf, pinf => nan
  | pinf, _ => pinf
  | _, pinf => pinf
  | ninf, _ => ninf
  | _, ninf => ninf

/-- IEEE negation. -/
def neg : RVal → RVal
  | fin a => fin (-a)
  | pinf => ninf
  | ninf => pinf
  | nan => nan

/-- IEEE subtraction (numpy `-`). -/
def sub (x y : RVal) : RVal := add x (neg y)

/-- IEEE multiplication (numpy `*`): `0 * inf = NaN`. -/
def mul : RVal → RVal → RVal
  | nan, _ => nan
  | _, nan => nan
  | fin a, fin b => fin (a * b)
  | fin a, pinf => if a = 0 then nan else if 0 < a then pinf else ninf
  | fin a, ninf => if a = 0 then nan else if 0 < a then ninf else pinf
  | pinf, fin b => if b = 0 then nan else if 0 < b then pinf else ninf
  | ninf, fin b => if b = 0 then nan else if 0 < b then ninf else pinf
  | pinf, pinf => pinf
  | pinf, ninf => ninf
  | ninf, pinf => ninf
  | ninf, ninf => pinf

/-- IEEE division (numpy `/`): `0/0 = NaN`, `x/0 = ±inf` for `x ≠ 0`,
`inf/inf = NaN`, `x/inf = 0` (signed zero collapsed). -/
def div : RVal → RVal → RVal
  | nan, _ => nan
  | _, nan => nan
  | fin a, fin b =>
      if b = 0 then (if a = 0 then nan else if 0 < a then pinf else ninf)
      else fin (a / b)
  | fin _, pinf => fin 0
  | fin _, ninf => fin 0
  | pinf, fin b => if 0 ≤ b then pinf else ninf
  | ninf, fin b => if 0 ≤ b then ninf else pinf
  | pinf, pinf => nan
  | pinf, ninf => nan
  | ninf, pinf => nan
  | ninf, ninf => nan

/-- IEEE `<=` (numpy comparison): any comparison against NaN is False. -/
def le : RVal → RVal → Bool
  | nan, _ => false
  | _, nan => false
  | fin a, fin b => decide (a ≤ b)
  | ninf, _ => true
  | _, pinf => true
  | pinf, _ => false
  | _, ninf => false

/-- numpy `np.isnan`. -/
def isnan : RVal → Bool
  | nan => true
  | _ => false

/-- numpy `==` against a scalar: NaN compares unequal to everything. -/
def eq1 (x : RVal) : Bool := decide (x = fin 1)

end RVal

instance : Add RVal := ⟨RVal.add⟩
instance : Sub RVal := ⟨RVal.sub⟩
instance : Mul RVal := ⟨RVal.mul⟩
instance : Div RVal := ⟨RVal.div⟩

/-- The value held in `self.G_form[1]`: either a python/numpy scalar or a
numpy array (the source freely replaces one with the other in place). -/
inductive GVal where
  | scalar : RVal → GVal
  | arr : List RVal → GVal
deriving DecidableEq, Repr

/-- Python exceptions that can escape the modelled code paths
(`nameError` also stands for `UnboundLocalError`, its subclass raised
when a local name is read before assignment). -/
inductive PyErr where
  | keyError : String → PyErr
  | typeError : PyErr
  | nameError : String → PyErr
deriving DecidableEq, Repr

/-! ## External collaborator interfaces (element-wise pure functions) -/

/-- Output of `rad.calc_difuse_ratio(S_dn, SZA, press=p)`. -/
structure DifuseOut where
  difvis : RVal
  difnir : RVal
  fvis : RVal
  fnir : RVal
deriving DecidableEq, Repr

/-- Per-element arguments of `res.calc_roughness`. -/
structure RoughArgs where
  LAI : RVal
  h_C : RVal
  w_C : RVal
  landcover : RVal
  f_c : RVal
deriving DecidableEq, Repr

/-- Per-element arguments of `rad.calc_Sn_Campbell`. -/
structure SnArgs where
  LAI : RVal
  SZA : RVal
  S_dn_dir : RVal
  S_dn_dif : RVal
  fvis : RVal
  fnir : RVal
  rho_vis_C : RVal
  tau_vis_C : RVal
  rho_nir_C : RVal
  tau_nir_C : RVal
  rho_vis_S : RVal
  rho_nir_S : RVal
  x_LAD : RVal
  LAI_eff : RVal
deriving DecidableEq, Repr

/-- Per-element arguments of `TSEB.OSEB` exactly as passed at
`PyTSEB.run_TSEB` lines 535-549. -/
structure OsebArgs where
  T_S_K : RVal
  T_A1 : RVal
  u : RVal
  ea : RVal
  p : RVal
  Sn_S1 : RVal
  L_dn : RVal
  emis_S : RVal
  z_0M : RVal
  d_0 : RVal
  z_u : RVal
  z_T : RVal
  calcG_code : Int
  calcG_val : RVal
  T0_K : Option (RVal × RVal)
deriving DecidableEq, Repr

/-- Per-element outputs of `TSEB.OSEB` (positional order of the call site). -/
structure OsebOut where
  flag : RVal
  Ln_S1 : RVal
  LE_S1 : RVal
  H_S1 : RVal
  G1 : RVal
  R_A1 : RVal
  u_friction : RVal
  L : RVal
  n_iterations : RVal
deriving DecidableEq, Repr

/-- Per-element arguments of `TSEB.TSEB_PT` (call site lines 652-677). -/
structure PtArgs where
  T_R1 : RVal
  VZA : RVal
  T_A1 : RVal
  u : RVal
  ea : RVal
  p : RVal
  Sn_C1 : RVal
  Sn_S1 : RVal
  L_dn : RVal
  LAI : RVal
  h_C : RVal
  emis_C : RVal
  emis_S : RVal
  z_0M : RVal
  d_0 : RVal
  z_u : RVal
  z_T : RVal
  f_c : RVal
  f_g : RVal
  w_C : RVal
  leaf_width : RVal
  z0_soil : RVal
  alpha_PT : RVal
  x_LAD : RVal
  calcG_code : Int
  calcG_val : RVal
  res_form : Int
  res_params : List (String × RVal)
deriving DecidableEq, Repr

/-- Per-element outputs of `TSEB.TSEB_PT` (positional order). -/
structure PtOut where
  flag : RVal
  T_S1 : RVal
  T_C1 : RVal
  T_AC1 : RVal
  Ln_S1 : RVal
  Ln_C1 : RVal
  LE_C1 : RVal
  H_C1 : RVal
  LE_S1 : RVal
  H_S1 : RVal
  G1 : RVal
  R_S1 : RVal
  R_x1 : RVal
  R_A1 : RVal
  u_friction : RVal
  L : RVal
  n_iterations : RVal
deriving DecidableEq, Repr

/-- Per-element arguments of `TSEB.DTD` (call site lines 616-643). -/
structure DtdArgs where
  T_R0 : RVal
  T_R1 : RVal
  VZA : RVal
  T_A0 : RVal
  T_A1 : RVal
  u : RVal
  ea : RVal
  p : RVal
  Sn_C1 : RVal
  Sn_S1 : RVal
  L_dn : RVal
  LAI : RVal
  h_C : RVal
  emis_C : RVal
  emis_S : RVal
  z_0M : RVal
  d_0 : RVal
  z_u : RVal
  z_T : RVal
  f_c : RVal
  w_C : RVal
  f_g : RVal
  leaf_width : RVal
  z0_soil : RVal
  alpha_PT : RVal
  x_LAD : RVal
  calcG_code : Int
  calcG_val : RVal
  res_form : Int
  res_params : List (String × RVal)
deriving DecidableEq, Repr

/-- Per-element outputs of `TSEB.DTD` (positional order; `Ri` is the bulk
Richardson number, returned between `L` and `n_iterations`). -/
structure DtdOut where
  flag : RVal
  T_S1 : RVal
  T_C1 : RVal
  T_AC1 : RVal
  Ln_S1 : RVal
  Ln_C1 : RVal
  LE_C1 : RVal
  H_C1 : RVal
  LE_S1 : RVal
  H_S1 : RVal
  G1 : RVal
  R_S1 : RVal
  R_x1 : RVal
  R_A1 : RVal
  u_friction : RVal
  L : RVal
  Ri : RVal
  n_iterations : RVal
deriving DecidableEq, Repr

/-- Per-element arguments of `TSEB.TSEB_2T` (call site lines 686-711). -/
structure T2Args where
  T_C : RVal
  T_S : RVal
  T_A1 : RVal
  u : RVal
  ea : RVal
  p : RVal
  Sn_C1 : RVal
  Sn_S1 : RVal
  L_dn : RVal
  LAI : RVal
  h_C : RVal
  emis_C : RVal
  emis_S : RVal
  z_0M : RVal
  d_0 : RVal
  z_u : RVal
  z_T : RVal
  f_c : RVal
  f_g : RVal
  w_C : RVal
  leaf_width : RVal
  z0_soil : RVal
  alpha_PT : RVal
  x_LAD : RVal
  calcG_code : Int
  calcG_val : RVal
  res_form : Int
  res_params : List (String × RVal)
deriving DecidableEq, Repr

/-- Per-element outputs of `TSEB.TSEB_2T` (positional order; the 2T branch
does not return component temperatures). -/
structure T2Out where
  flag : RVal
  T_AC1 : RVal
  Ln_S1 : RVal
  Ln_C1 : RVal
  LE_C1 : RVal
  H_C1 : RVal
  LE_S1 : RVal
  H_S1 : RVal
  G1 : RVal
  R_S1 : RVal
  R_x1 : RVal
  R_A1 : RVal
  u_friction : RVal
  L : RVal
  n_iterations : RVal
deriving DecidableEq, Repr

/-- The external collaborators consumed by `run_TSEB`, modelled as
element-wise pure functions (design document sections 1-2 treat them as
out-of-scope pure numeric functions; the model is fully data-parallel). -/
structure Collab where
  calcDifuse : RVal → RVal → RVal → DifuseOut
  calcRoughness : RoughArgs → RVal × RVal
  calcOmega0Kustas : RVal → RVal → RVal → RVal
  calcOmegaKustas : RVal → RVal → RVal → RVal
  calcSnCampbell : SnArgs → RVal × RVal
  OSEB : OsebArgs → OsebOut
  TSEB_PT : PtArgs → PtOut
  TSEB_2T : T2Args → T2Out
  DTD : DtdArgs → DtdOut

/-! ## Input and output tables of `run_TSEB` -/

/-- The per-element input columns of `run_TSEB` (`in_data`). -/
structure InData (n : ℕ) where
  T_R1 : Fin n → RVal
  T_R0 : Fin n → RVal
  T_A0 : Fin n → RVal
  T_A1 : Fin n → RVal
  T_S : Fin n → RVal
  T_C : Fin n → RVal
  VZA : Fin n → RVal
  u : Fin n → RVal
  ea : Fin n → RVal
  p : Fin n → RVal
  S_dn : Fin n → RVal
  SZA : Fin n → RVal
  L_dn : Fin n → RVal
  LAI : Fin n → RVal
  f_c : Fin n → RVal
  h_C : Fin n → RVal
  w_C : Fin n → RVal
  f_g : Fin n → RVal
  leaf_width : Fin n → RVal
  z0_soil : Fin n → RVal
  alpha_PT : Fin n → RVal
  x_LAD : Fin n → RVal
  landcover : Fin n → RVal
  emis_C : Fin n → RVal
  emis_S : Fin n → RVal
  rho_vis_C : Fin n → RVal
  tau_vis_C : Fin n → RVal
  rho_nir_C : Fin n → RVal
  tau_nir_C : Fin n → RVal
  rho_vis_S : Fin n → RVal
  rho_nir_S : Fin n → RVal
  z_u : Fin n → RVal
  z_T : Fin n → RVal

/-- The output dictionary of `run_TSEB` (`out_data`): every key of
`_get_output_structure` plus the five radiation-partition keys added at
lines 489-493.  All columns are initialised to NaN; `Ri` is a plain list
because the DTD branch (line 615) replaces the whole array with the
solver's compressed sub-array, changing its length. -/
structure OutData (n : ℕ) where
  R_A1 : Fin n → RVal
  R_x1 : Fin n → RVal
  R_S1 : Fin n → RVal
  R_n1 : Fin n → RVal
  R_ns1 : Fin n → RVal
  R_nl1 : Fin n → RVal
  delta_R_n1 : Fin n → RVal
  Sn_S1 : Fin n → RVal
  Sn_C1 : Fin n → RVal
  Ln_S1 : Fin n → RVal
  Ln_C1 : Fin n → RVal
  H_C1 : Fin n → RVal
  H_S1 : Fin n → RVal
  H1 : Fin n → RVal
  G1 : Fin n → RVal
  LE_C1 : Fin n → RVal
  LE_S1 : Fin n → RVal
  LE1 : Fin n → RVal
  LE_partition : Fin n → RVal
  T_C1 : Fin n → RVal
  T_S1 : Fin n → RVal
  T_AC1 : Fin n → RVal
  albedo1 : Fin n → RVal
  omega0 : Fin n → RVal
  alpha : Fin n → RVal
  L : Fin n → RVal
  u_friction : Fin n → RVal
  theta_s1 : Fin n → RVal
  F : Fin n → RVal
  z_0M : Fin n → RVal
  d_0 : Fin n → RVal
  Skyl : Fin n → RVal
  flag : Fin n → RVal
  n_iterations : Fin n → RVal
  fvis : Fin n → RVal
  fnir : Fin n → RVal
  S_dn_dir : Fin n → RVal
  S_dn_dif : Fin n → RVal
  Ri : List RVal

/-- Run-level configuration shared by all elements of one call. -/
structure Config where
  model : String
  gcode : Int
  res_form : Int
deriving DecidableEq, Repr

/-! ## Embedding of `PyTSEB.run_TSEB` (lines 474-723) -/

/-- `rad.calc_difuse_ratio(in_data['S_dn'], in_data['SZA'], press=in_data['p'])`
at element `k` (line 487). -/
def difuseOf (C : Collab) {n : ℕ} (d : InData n) (k : Fin n) : DifuseOut :=
  C.calcDifuse (d.S_dn k) (d.SZA k) (d.p k)

/-- `out_data['Skyl'] = difvis * fvis + difnir * fnir` (line 491). -/
def skylOf (C : Collab) {n : ℕ} (d : InData n) (k : Fin n) : RVal :=
  (difuseOf C d k).difvis * (difuseOf C d k).fvis +
    (difuseOf C d k).difnir * (difuseOf C d k).fnir

/-- `out_data['S_dn_dir'] = in_data['S_dn'] * (1.0 - out_data['Skyl'])` (line 492). -/
def sDnDirOf (C : Collab) {n : ℕ} (d : InData n) (k : Fin n) : RVal :=
  d.S_dn k * (RVal.fin 1 - skylOf C d k)

/-- `out_data['S_dn_dif'] = in_data['S_dn'] * out_data['Skyl']` (line 493). -/
def sDnDifOf (C : Collab) {n : ℕ} (d : InData n) (k : Fin n) : RVal :=
  d.S_dn k * skylOf C d k

/-- `noVegPixels` (lines 499-502): `f_c <= 0.01`, `LAI <= 0` or `isnan(LAI)`.
NaN comparisons are False, so a NaN `f_c` does not select the element. -/
def noVegOf {n : ℕ} (d : InData n) (k : Fin n) : Bool :=
  RVal.le (d.f_c k) (RVal.fin (1/100)) || RVal.le (d.LAI k) (RVal.fin 0) ||
    RVal.isnan (d.LAI k)

/-- Bare-soil element selector `i = np.logical_and(noVegPixels, mask == 1)`
(line 505). -/
def iSoilOf {n : ℕ} (d : InData n) (mask : Fin n → RVal) (k : Fin n) : Bool :=
  noVegOf d k && RVal.eq1 (mask k)

/-- Vegetated element selector `i = np.logical_and(~noVegPixels, mask == 1)`
(line 560). -/
def iVegOf {n : ℕ} (d : InData n) (mask : Fin n → RVal) (k : Fin n) : Bool :=
  !(noVegOf d k) && RVal.eq1 (mask k)

/-- Bare-soil ground albedo
`spectraGrdOSEB = fvis * rho_vis_S + fnir * rho_nir_S` (lines 512-513). -/
def spectraGrdOf (C : Collab) {n : ℕ} (d : InData n) (k : Fin n) : RVal :=
  (difuseOf C d k).fvis * d.rho_vis_S k + (difuseOf C d k).fnir * d.rho_nir_S k

/-- Bare-soil net shortwave
`Sn_S1 = (1 - spectraGrdOSEB) * (S_dn_dir + S_dn_dif)` (lines 514-515). -/
def snSBareOf (C : Collab) {n : ℕ} (d : InData n) (k : Fin n) : RVal :=
  (RVal.fin 1 - spectraGrdOf C d k) * (sDnDirOf C d k + sDnDifOf C d k)

/-- Bare-soil surface temperature argument (lines 518-526): `T_R1` for DTD
and TSEB_PT, otherwise (including any unknown model name) `T_S`. -/
def tSKOf {n : ℕ} (cfg : Config) (d : InData n) (k : Fin n) : RVal :=
  if cfg.model = "DTD" then d.T_R1 k
  else if cfg.model = "TSEB_PT" then d.T_R1 k
  else d.T_S k

/-- `T0_K` argument of `TSEB.OSEB`: `(T_R0, T_A0)` for DTD, empty otherwise. -/
def t0KOf {n : ℕ} (cfg : Config) (d : InData n) (k : Fin n) : Option (RVal × RVal) :=
  if cfg.model = "DTD" then some (d.T_R0 k, d.T_A0 k) else none

/-- The soil boundary conditions handed to `TSEB.OSEB` for a bare-soil
element (lines 508-549): bare-soil roughness `z_0M = z0_soil`,
`d_0 = 5 * z_0M`, the bare-soil net shortwave, and the per-element
soil-heat-flux driving value `G_form[1][k]`. -/
def osebArgsOf (C : Collab) {n : ℕ} (cfg : Config) (gArr : Fin n → RVal)
    (d : InData n) (k : Fin n) : OsebArgs :=
  { T_S_K := tSKOf cfg d k
    T_A1 := d.T_A1 k
    u := d.u k
    ea := d.ea k
    p := d.p k
    Sn_S1 := snSBareOf C d k
    L_dn := d.L_dn k
    emis_S := d.emis_S k
    z_0M := d.z0_soil k
    d_0 := RVal.fin 5 * d.z0_soil k
    z_u := d.z_u k
    z_T := d.z_T k
    calcG_code := cfg.gcode
    calcG_val := gArr k
    T0_K := t0KOf cfg d k }

/-- `res.calc_roughness` on a vegetated element (lines 563-568). -/
def roughOf (C : Collab) {n : ℕ} (d : InData n) (k : Fin n) : RVal × RVal :=
  C.calcRoughness
    { LAI := d.LAI k, h_C := d.h_C k, w_C := d.w_C k,
      landcover := d.landcover k, f_c := d.f_c k }

/-- `F = np.zeros(...); F[i] = LAI[i] / f_c[i]` (lines 571-572). -/
def fColOf {n : ℕ} (d : InData n) (mask : Fin n → RVal) (k : Fin n) : RVal :=
  if iVegOf d mask k then d.LAI k / d.f_c k else RVal.fin 0

/-- `omega0[i] = CI.calc_omega0_Kustas(LAI[i], f_c[i], x_LAD[i], ...)`
with a zero background (lines 574-579). -/
def omega0Of (C : Collab) {n : ℕ} (d : InData n) (mask : Fin n → RVal)
    (k : Fin n) : RVal :=
  if iVegOf d mask k then C.calcOmega0Kustas (d.LAI k) (d.f_c k) (d.x_LAD k)
  else RVal.fin 0

/-- `Omega[i] = CI.calc_omega_Kustas(omega0[i], SZA[i], w_C[i])`
(lines 580-585; both branches of `calc_row` issue the identical call). -/
def omegaOf (C : Collab) {n : ℕ} (d : InData n) (mask : Fin n → RVal)
    (k : Fin n) : RVal :=
  if iVegOf d mask k then
    C.calcOmegaKustas (omega0Of C d mask k) (d.SZA k) (d.w_C k)
  else RVal.fin 0

/-- `LAI_eff = F * Omega` (line 586). -/
def laiEffOf (C : Collab) {n : ℕ} (d : InData n) (mask : Fin n → RVal)
    (k : Fin n) : RVal :=
  fColOf d mask k * omegaOf C d mask k

/-- `rad.calc_Sn_Campbell` on a vegetated element (lines 587-601),
returning `(Sn_C1, Sn_S1)`. -/
def snVegOf (C : Collab) {n : ℕ} (d : InData n) (mask : Fin n → RVal)
    (k : Fin n) : RVal × RVal :=
  C.calcSnCampbell
    { LAI := d.LAI k, SZA := d.SZA k,
      S_dn_dir := sDnDirOf C d k, S_dn_dif := sDnDifOf C d k,
      fvis := (difuseOf C d k).fvis, fnir := (difuseOf C d k).fnir,
      rho_vis_C := d.rho_vis_C k, tau_vis_C := d.tau_vis_C k,
      rho_nir_C := d.rho_nir_C k, tau_nir_C := d.tau_nir_C k,
      rho_vis_S := d.rho_vis_S k, rho_nir_S := d.rho_nir_S k,
      x_LAD := d.x_LAD k, LAI_eff := laiEffOf C d mask k }

/-- `out_data['z_0M']`: soil roughness on the bare-soil selector (line 508),
`calc_roughness` on the vegetated selector (line 563), NaN elsewhere. -/
def z0MColOf (C : Collab) {n : ℕ} (d : InData n) (mask : Fin n → RVal)
    (k : Fin n) : RVal :=
  if iVegOf d mask k then (roughOf C d k).1
  else if iSoilOf d mask k then d.z0_soil k
  else RVal.nan

/-- `out_data['d_0']`: `5 * z_0M` on bare soil (line 509), `calc_roughness`
on vegetation (line 563), NaN elsewhere. -/
def d0ColOf (C : Collab) {n : ℕ} (d : InData n) (mask : Fin n → RVal)
    (k : Fin n) : RVal :=
  if iVegOf d mask k then (roughOf C d k).2
  else if iSoilOf d mask k then RVal.fin 5 * d.z0_soil k
  else RVal.nan

/-- `out_data['Sn_C1']`: Campbell canopy net shortwave on vegetation
(line 587), zero on bare soil (line 552), NaN elsewhere. -/
def snCColOf (C : Collab) {n : ℕ} (d : InData n) (mask : Fin n → RVal)
    (k : Fin n) : RVal :=
  if iVegOf d mask k then (snVegOf C d mask k).1
  else if iSoilOf d mask k then RVal.fin 0
  else RVal.nan

/-- `out_data['Sn_S1']`: Campbell soil net shortwave on vegetation
(line 588), bare-soil net shortwave on bare soil (line 514), NaN elsewhere. -/
def snSColOf (C : Collab) {n : ℕ} (d : InData n) (mask : Fin n → RVal)
    (k : Fin n) : RVal :=
  if iVegOf d mask k then (snVegOf C d mask k).2
  else if iSoilOf d mask k then snSBareOf C d k
  else RVal.nan

/-- Per-element resistance parameters
`{k: self.res_params[k][i] for k in self.res_params}` (line 606). -/
def resAtOf {n : ℕ} (resKN : List (String × (Fin n → RVal))) (k : Fin n) :
    List (String × RVal) :=
  resKN.map (fun pr => (pr.1, pr.2 k))

/-- Arguments of `TSEB.TSEB_PT` at a vegetated element (lines 652-677). -/
def ptArgsOf (C : Collab) {n : ℕ} (cfg : Config) (gArr : Fin n → RVal)
    (resKN : List (String × (Fin n → RVal))) (d : InData n)
    (mask : Fin n → RVal) (k : Fin n) : PtArgs :=
  { T_R1 := d.T_R1 k, VZA := d.VZA k, T_A1 := d.T_A1 k, u := d.u k,
    ea := d.ea k, p := d.p k,
    Sn_C1 := snCColOf C d mask k, Sn_S1 := snSColOf C d mask k,
    L_dn := d.L_dn k, LAI := d.LAI k, h_C := d.h_C k,
    emis_C := d.emis_C k, emis_S := d.emis_S k,
    z_0M := z0MColOf C d mask k, d_0 := d0ColOf C d mask k,
    z_u := d.z_u k, z_T := d.z_T k, f_c := d.f_c k, f_g := d.f_g k,
    w_C := d.w_C k, leaf_width := d.leaf_width k, z0_soil := d.z0_soil k,
    alpha_PT := d.alpha_PT k, x_LAD := d.x_LAD k,
    calcG_code := cfg.gcode, calcG_val := gArr k,
    res_form := cfg.res_form, res_params := resAtOf resKN k }

/-- Arguments of `TSEB.DTD` at a vegetated element (lines 616-643). -/
def dtdArgsOf (C : Collab) {n : ℕ} (cfg : Config) (gArr : Fin n → RVal)
    (resKN : List (String × (Fin n → RVal))) (d : InData n)
    (mask : Fin n → RVal) (k : Fin n) : DtdArgs :=
  { T_R0 := d.T_R0 k, T_R1 := d.T_R1 k, VZA := d.VZA k,
    T_A0 := d.T_A0 k, T_A1 := d.T_A1 k, u := d.u k, ea := d.ea k, p := d.p k,
    Sn_C1 := snCColOf C d mask k, Sn_S1 := snSColOf C d mask k,
    L_dn := d.L_dn k, LAI := d.LAI k, h_C := d.h_C k,
    emis_C := d.emis_C k, emis_S := d.emis_S k,
    z_0M := z0MColOf C d mask k, d_0 := d0ColOf C d mask k,
    z_u := d.z_u k, z_T := d.z_T k, f_c := d.f_c k, w_C := d.w_C k,
    f_g := d.f_g k, leaf_width := d.leaf_width k, z0_soil := d.z0_soil k,
    alpha_PT := d.alpha_PT k, x_LAD := d.x_LAD k,
    calcG_code := cfg.gcode, calcG_val := gArr k,
    res_form := cfg.res_form, res_params := resAtOf resKN k }

/-- Arguments of `TSEB.TSEB_2T` at a vegetated element (lines 686-711). -/
def t2ArgsOf (C : Collab) {n : ℕ} (cfg : Config) (gArr : Fin n → RVal)
    (resKN : List (String × (Fin n → RVal))) (d : InData n)
    (mask : Fin n → RVal) (k : Fin n) : T2Args :=
  { T_C := d.T_C k, T_S := d.T_S k, T_A1 := d.T_A1 k, u := d.u k,
    ea := d.ea k, p := d.p k,
    Sn_C1 := snCColOf C d mask k, Sn_S1 := snSColOf C d mask k,
    L_dn := d.L_dn k, LAI := d.LAI k, h_C := d.h_C k,
    emis_C := d.emis_C k, emis_S := d.emis_S k,
    z_0M := z0MColOf C d mask k, d_0 := d0ColOf C d mask k,
    z_u := d.z_u k, z_T := d.z_T k, f_c := d.f_c k, f_g := d.f_g k,
    w_C := d.w_C k, leaf_width := d.leaf_width k, z0_soil := d.z0_soil k,
    alpha_PT := d.alpha_PT k, x_LAD := d.x_LAD k,
    calcG_code := cfg.gcode, calcG_val := gArr k,
    res_form := cfg.res_form, res_params := resAtOf resKN k }

/-- The bare-soil branch solver result at element `k`:
`TSEB.OSEB` on the element's soil boundary conditions (lines 527-549). -/
def osebResOf (C : Collab) {n : ℕ} (cfg : Config) (gArr : Fin n → RVal)
    (d : InData n) (k : Fin n) : OsebOut :=
  C.OSEB (osebArgsOf C cfg gArr d k)

/-- The uniform shape of one vegetated-branch solver result: the three
dispatch blocks (lines 609-711) write the same output columns, except
that `TSEB_2T` does not write `T_S1`/`T_C1` and only `DTD` returns the
Richardson number. -/
structure VegUpd where
  flag : RVal
  T_S1 : Option RVal
  T_C1 : Option RVal
  T_AC1 : RVal
  Ln_S1 : RVal
  Ln_C1 : RVal
  LE_C1 : RVal
  H_C1 : RVal
  LE_S1 : RVal
  H_S1 : RVal
  G1 : RVal
  R_S1 : RVal
  R_x1 : RVal
  R_A1 : RVal
  u_friction : RVal
  L : RVal
  n_iterations : RVal
  Ri : Option RVal
deriving DecidableEq, Repr

/-- The DTD block's writes (lines 609-643). -/
def dtdUpd (o : DtdOut) : VegUpd :=
  { flag := o.flag, T_S1 := some o.T_S1, T_C1 := some o.T_C1,
    T_AC1 := o.T_AC1, Ln_S1 := o.Ln_S1, Ln_C1 := o.Ln_C1,
    LE_C1 := o.LE_C1, H_C1 := o.H_C1, LE_S1 := o.LE_S1, H_S1 := o.H_S1,
    G1 := o.G1, R_S1 := o.R_S1, R_x1 := o.R_x1, R_A1 := o.R_A1,
    u_friction := o.u_friction, L := o.L, n_iterations := o.n_iterations,
    Ri := some o.Ri }

/-- The TSEB_PT block's writes (lines 645-677). -/
def ptUpd (o : PtOut) : VegUpd :=
  { flag := o.flag, T_S1 := some o.T_S1, T_C1 := some o.T_C1,
    T_AC1 := o.T_AC1, Ln_S1 := o.Ln_S1, Ln_C1 := o.Ln_C1,
    LE_C1 := o.LE_C1, H_C1 := o.H_C1, LE_S1 := o.LE_S1, H_S1 := o.H_S1,
    G1 := o.G1, R_S1 := o.R_S1, R_x1 := o.R_x1, R_A1 := o.R_A1,
    u_friction := o.u_friction, L := o.L, n_iterations := o.n_iterations,
    Ri := none }

/-- The TSEB_2T block's writes (lines 679-711). -/
def t2Upd (o : T2Out) : VegUpd :=
  { flag := o.flag, T_S1 := none, T_C1 := none,
    T_AC1 := o.T_AC1, Ln_S1 := o.Ln_S1, Ln_C1 := o.Ln_C1,
    LE_C1 := o.LE_C1, H_C1 := o.H_C1, LE_S1 := o.LE_S1, H_S1 := o.H_S1,
    G1 := o.G1, R_S1 := o.R_S1, R_x1 := o.R_x1, R_A1 := o.R_A1,
    u_friction := o.u_friction, L := o.L, n_iterations := o.n_iterations,
    Ri := none }

/-- The model dispatch of the vegetated branch (lines 609-711): the
solver result for element `k` under the configured selector, `none` for
a selector outside `{DTD, TSEB_PT, TSEB_2T}` (in which case no vegetated
output is written at all). -/
def vegUpdOf (C : Collab) {n : ℕ} (cfg : Config) (gArr : Fin n → RVal)
    (resKN : List (String × (Fin n → RVal))) (d : InData n)
    (mask : Fin n → RVal) (k : Fin n) : Option VegUpd :=
  if cfg.model = "DTD" then
    some (dtdUpd (C.DTD (dtdArgsOf C cfg gArr resKN d mask k)))
  else if cfg.model = "TSEB_PT" then
    some (ptUpd (C.TSEB_PT (ptArgsOf C cfg gArr resKN d mask k)))
  else if cfg.model = "TSEB_2T" then
    some (t2Upd (C.TSEB_2T (t2ArgsOf C cfg gArr resKN d mask k)))
  else none

/-- Final value of an output cell overwritten by the vegetated branch on
the vegetated selector: the solver value where `iVeg` holds (and the
block writes the column), the earlier value elsewhere. -/
def maskedVal (iV : Bool) (vegField : Option RVal) (base : RVal) : RVal :=
  match vegField with
  | some v => if iV then v else base
  | none => base

/-- Value of a column written by the bare-soil branch on the bare-soil
selector and left NaN elsewhere. -/
def soilVal (iS : Bool) (x : RVal) : RVal :=
  if iS then x else RVal.nan

/-- `run_TSEB` before the bulk-flux assembly (lines 474-711): every
output column initialised to NaN, the radiation partition computed for
all elements, the bare-soil branch written under `iSoil`, the vegetated
branch written under `iVeg` by the configured model block, and (for DTD)
`out_data['Ri']` replaced wholesale by the solver's compressed result
(line 615, an assignment without the `[i]` index). -/
def runTSEBPre (C : Collab) {n : ℕ} (cfg : Config) (gArr : Fin n → RVal)
    (resKN : List (String × (Fin n → RVal))) (d : InData n)
    (mask : Fin n → RVal) : OutData n :=
  { R_A1 := fun k => maskedVal (iVegOf d mask k)
      ((vegUpdOf C cfg gArr resKN d mask k).map (fun v => v.R_A1))
      (soilVal (iSoilOf d mask k) (osebResOf C cfg gArr d k).R_A1)
    R_x1 := fun k => maskedVal (iVegOf d mask k)
      ((vegUpdOf C cfg gArr resKN d mask k).map (fun v => v.R_x1)) RVal.nan
    R_S1 := fun k => maskedVal (iVegOf d mask k)
      ((vegUpdOf C cfg gArr resKN d mask k).map (fun v => v.R_S1)) RVal.nan
    R_n1 := fun _ => RVal.nan
    R_ns1 := fun _ => RVal.nan
    R_nl1 := fun _ => RVal.nan
    delta_R_n1 := fun _ => RVal.nan
    Sn_S1 := fun k => snSColOf C d mask k
    Sn_C1 := fun k => snCColOf C d mask k
    Ln_S1 := fun k => maskedVal (iVegOf d mask k)
      ((vegUpdOf C cfg gArr resKN d mask k).map (fun v => v.Ln_S1))
      (soilVal (iSoilOf d mask k) (osebResOf C cfg gArr d k).Ln_S1)
    Ln_C1 := fun k => maskedVal (iVegOf d mask k)
      ((vegUpdOf C cfg gArr resKN d mask k).map (fun v => v.Ln_C1))
      (soilVal (iSoilOf d mask k) (RVal.fin 0))
    H_C1 := fun k => maskedVal (iVegOf d mask k)
      ((vegUpdOf C cfg gArr resKN d mask k).map (fun v => v.H_C1))
      (soilVal (iSoilOf d mask k) (RVal.fin 0))
    H_S1 := fun k => maskedVal (iVegOf d mask k)
      ((vegUpdOf C cfg gArr resKN d mask k).map (fun v => v.H_S1))
      (soilVal (iSoilOf d mask k) (osebResOf C cfg gArr d k).H_S1)
    H1 := fun _ => RVal.nan
    G1 := fun k => maskedVal (iVegOf d mask k)
      ((vegUpdOf C cfg gArr resKN d mask k).map (fun v => v.G1))
      (soilVal (iSoilOf d mask k) (osebResOf C cfg gArr d k).G1)
    LE_C1 := fun k => maskedVal (iVegOf d mask k)
      ((vegUpdOf C cfg gArr resKN d mask k).map (fun v => v.LE_C1))
      (soilVal (iSoilOf d mask k) (RVal.fin 0))
    LE_S1 := fun k => maskedVal (iVegOf d mask k)
      ((vegUpdOf C cfg gArr resKN d mask k).map (fun v => v.LE_S1))
      (soilVal (iSoilOf d mask k) (osebResOf C cfg gArr d k).LE_S1)
    LE1 := fun _ => RVal.nan
    LE_partition := fun _ => RVal.nan
    T_C1 := fun k => maskedVal (iVegOf d mask k)
      ((vegUpdOf C cfg gArr resKN d mask k).bind (fun v => v.T_C1)) RVal.nan
    T_S1 := fun k => maskedVal (iVegOf d mask k)
      ((vegUpdOf C cfg gArr resKN d mask k).bind (fun v => v.T_S1)) RVal.nan
    T_AC1 := fun k => maskedVal (iVegOf d mask k)
      ((vegUpdOf C cfg gArr resKN d mask k).map (fun v => v.T_AC1)) RVal.nan
    albedo1 := fun _ => RVal.nan
    omega0 := fun _ => RVal.nan
    alpha := fun _ => RVal.nan
    L := fun k => maskedVal (iVegOf d mask k)
      ((vegUpdOf C cfg gArr resKN d mask k).map (fun v => v.L))
      (soilVal (iSoilOf d mask k) (osebResOf C cfg gArr d k).L)
    u_friction := fun k => maskedVal (iVegOf d mask k)
      ((vegUpdOf C cfg gArr resKN d mask k).map (fun v => v.u_friction))
      (soilVal (iSoilOf d mask k) (osebResOf C cfg gArr d k).u_friction)
    theta_s1 := fun _ => RVal.nan
    F := fun _ => RVal.nan
    z_0M := fun k => z0MColOf C d mask k
    d_0 := fun k => d0ColOf C d mask k
    Skyl := fun k => skylOf C d k
    flag := fun k => maskedVal (iVegOf d mask k)
      ((vegUpdOf C cfg gArr resKN d mask k).map (fun v => v.flag))
      (soilVal (iSoilOf d mask k) (osebResOf C cfg gArr d k).flag)
    n_iterations := fun k => maskedVal (iVegOf d mask k)
      ((vegUpdOf C cfg gArr resKN d mask k).map (fun v => v.n_iterations))
      (soilVal (iSoilOf d mask k) (osebResOf C cfg gArr d k).n_iterations)
    fvis := fun k => (difuseOf C d k).fvis
    fnir := fun k => (difuseOf C d k).fnir
    S_dn_dir := fun k => sDnDirOf C d k
    S_dn_dif := fun k => sDnDifOf C d k
    Ri := if cfg.model = "DTD" then
        ((List.finRange n).filter (fun k => iVegOf d mask k)).map
          (fun k => (C.DTD (dtdArgsOf C cfg gArr resKN d mask k)).Ri)
      else List.replicate n RVal.nan }

/-- The bulk-flux assembly of `run_TSEB` (lines 713-720), computed
sequentially: `LE1 = LE_C1 + LE_S1`, `LE_partition = LE_C1 / LE1` (no
guard against a zero denominator and no flag update), `H1`, `R_ns1`,
`R_nl1`, `R_n1 = R_ns1 + R_nl1`, `delta_R_n1`. -/
def calcBulkFluxes {n : ℕ} (o : OutData n) : OutData n :=
  let LE1c := fun k => o.LE_C1 k + o.LE_S1 k
  let LEpart := fun k => o.LE_C1 k / LE1c k
  let H1c := fun k => o.H_C1 k + o.H_S1 k
  let Rns := fun k => o.Sn_C1 k + o.Sn_S1 k
  let Rnl := fun k => o.Ln_C1 k + o.Ln_S1 k
  let Rn := fun k => Rns k + Rnl k
  let dRn := fun k => o.Sn_C1 k + o.Ln_C1 k
  { o with
    LE1 := LE1c
    LE_partition := LEpart
    H1 := H1c
    R_ns1 := Rns
    R_nl1 := Rnl
    R_n1 := Rn
    delta_R_n1 := dRn }

/-- The whole of `PyTSEB.run_TSEB` (lines 474-723). -/
def runTSEB (C : Collab) {n : ℕ} (cfg : Config) (gArr : Fin n → RVal)
    (resKN : List (String × (Fin n → RVal))) (d : InData n)
    (mask : Fin n → RVal) : OutData n :=
  calcBulkFluxes (runTSEBPre C cfg gArr resKN d mask)

/-! ## Embedding of the point-series entry path
(`run_TSEB_point_series_array`, `_required_data_present`) -/

/-- A pandas data frame, reduced to its named columns. -/
structure Table where
  cols : List (String × List RVal)
deriving DecidableEq, Repr

/-- `name in table.columns`. -/
def Table.hasCol (t : Table) (s : String) : Bool :=
  t.cols.any (fun c => decide (c.1 = s))

/-- `table[name]`; total with an empty default (the callers below only
read columns whose presence was established). -/
def Table.getCol (t : Table) (s : String) : List RVal :=
  match t.cols.find? (fun c => decide (c.1 = s)) with
  | some c => c.2
  | none => []

/-- `MandatoryFields_TSEB_PT` (lines 949-960). -/
def mandatoryTSEB_PT : List String :=
  ["year", "DOY", "time", "T_R1", "VZA", "T_A1", "u", "ea", "S_dn", "LAI", "h_C"]

/-- `MandatoryFields_DTD` (lines 961-974). -/
def mandatoryDTD : List String :=
  ["year", "DOY", "time", "T_R0", "T_R1", "VZA", "T_A0", "T_A1", "u", "ea",
   "S_dn", "LAI", "h_C"]

/-- `MandatoryFields_TSEB_2T` (lines 975-986). -/
def mandatoryTSEB_2T : List String :=
  ["year", "DOY", "time", "T_C", "T_S", "T_A1", "u", "ea", "S_dn", "LAI", "h_C"]

/-- `_required_data_present` (lines 945-1003): True iff the mandatory set
of the configured model is contained in the table's columns; an unknown
model name yields False. -/
def requiredDataPresent (model : String) (t : Table) : Bool :=
  if model = "TSEB_PT" then mandatoryTSEB_PT.all t.hasCol
  else if model = "DTD" then mandatoryDTD.all t.hasCol
  else if model = "TSEB_2T" then mandatoryTSEB_2T.all t.hasCol
  else false

/-- Outcome of `run_TSEB_point_series_array` as far as the boundary is
concerned. -/
inductive PSRun where
  /-- the function returned `(None, None)` at line 306: the solver was
  not run and no output file was written. -/
  | rejected : PSRun
  /-- the function passed the boundary check and proceeded to `run_TSEB`
  and the CSV write. -/
  | completed : PSRun
deriving DecidableEq, Repr

/-- The input boundary of `run_TSEB_point_series_array` (lines 296-306):
`compose_date` reads the `year`, `DOY` and `time` columns (in that
keyword order), raising `KeyError` if one is absent, and only then is
`_required_data_present` consulted; on failure the function returns
`(None, None)`. -/
def psFrontOutcome (model : String) (t : Table) : Except PyErr PSRun :=
  if ¬ t.hasCol "year" then Except.error (PyErr.keyError "year")
  else if ¬ t.hasCol "DOY" then Except.error (PyErr.keyError "DOY")
  else if ¬ t.hasCol "time" then Except.error (PyErr.keyError "time")
  else if ¬ requiredDataPresent model t then Except.ok PSRun.rejected
  else Except.ok PSRun.completed

/-- `np.ones(dims) * g` (line 365).  Multiplying by ones keeps every
value (`1 * x = x`, exactly, also for the IEEE special values); a scalar
is broadcast to the table's length. -/
def onesMul (dims : ℕ) : GVal → GVal
  | GVal.scalar x => GVal.arr (List.replicate dims (RVal.mul (RVal.fin 1) x))
  | GVal.arr xs => GVal.arr (xs.map (fun x => RVal.mul (RVal.fin 1) x))

/-- The in-place update of `self.G_form[1]` performed by
`run_TSEB_point_series_array` (lines 359-369): measured `G` column for
the constant form when present, broadcast ratio for the ratio form, the
`time` column for the Santanello-and-Friedl form. -/
def psUpdateG (t : Table) (dims : ℕ) (gcode : Int) (g : GVal) : GVal :=
  if gcode = 0 then (if t.hasCol "G" then GVal.arr (t.getCol "G") else g)
  else if gcode = 1 then onesMul dims g
  else if gcode = 2 then GVal.arr (t.getCol "time")
  else g

/-- The mutable per-instance state read and written by
`run_TSEB_point_series_array`: `self.G_form[1]` and `self.res_params`
(`self.p`, which is never written, is carried in `PSParams`). -/
structure PSState where
  gcode : Int
  gval : GVal
  res_form : Int
  resParams : List (String × List RVal)
deriving DecidableEq, Repr

/-- The configuration scalars of `self.p` consumed by the state update. -/
structure PSParams where
  KN_b : RVal
  KN_c : RVal
  KN_C_dash : RVal
deriving DecidableEq, Repr

/-- One call's mutation of the instance state (lines 359-375): the
`G_form` update above plus the overwrite of `self.res_params` from
`self.p` when the Kustas-Norman resistance form is selected.
`dims = in_data['LAI'].shape` (line 360). -/
def psStep (p : PSParams) (t : Table) (s : PSState) : PSState :=
  let dims := (t.getCol "LAI").length
  { s with
    gval := psUpdateG t dims s.gcode s.gval
    resParams :=
      if s.res_form = 0 then
        [("KN_b", List.replicate dims (RVal.mul (RVal.fin 1) p.KN_b)),
         ("KN_c", List.replicate dims (RVal.mul (RVal.fin 1) p.KN_c)),
         ("KN_C_dash", List.replicate dims (RVal.mul (RVal.fin 1) p.KN_C_dash))]
      else s.resParams }

/-! ## Embedding of the image entry path (`run_TSEB_local_image`,
`_get_input_structure`, `_open_GDAL_image` on the G parameter) -/

/-- The keys of `_get_input_structure("TSEB_PT")` in source order
(lines 881-930).  Note the capitalised `KN_C_dash`. -/
def tsebPTFields : List String :=
  ["T_R1", "LAI", "VZA", "landcover", "input_mask",
   "f_c", "h_C", "w_C", "f_g", "leaf_width", "x_LAD", "alpha_PT",
   "rho_vis_C", "tau_vis_C", "rho_nir_C", "tau_nir_C", "rho_vis_S",
   "rho_nir_S", "emis_C", "emis_S",
   "lat", "lon", "stdlon", "time", "DOY", "SZA", "SAA",
   "T_A1", "u", "ea", "alt", "p", "S_dn", "z_T", "z_u", "z0_soil", "L_dn",
   "KN_b", "KN_c", "KN_C_dash", "G"]

/-- `_get_input_structure` (lines 880-943): TSEB_2T deletes `T_R1` and
appends the component temperatures, DTD appends the time-0 fields, an
unknown model yields the empty dictionary. -/
def getInputStructure (model : String) : List String :=
  if model = "TSEB_PT" then tsebPTFields
  else if model = "TSEB_2T" then (tsebPTFields.erase "T_R1") ++ ["T_C", "T_S"]
  else if model = "DTD" then tsebPTFields ++ ["T_R0", "T_A0"]
  else []

/-- `_open_GDAL_image(self.G_form[1], dims)` as invoked from
`run_TSEB_local_image` line 167.  The first statement of
`_open_GDAL_image` is `float(parameter)` guarded only by
`except ValueError`: a scalar converts and is broadcast over the image,
a one-element numpy array still converts, but a larger array raises
`TypeError`, which no handler catches. -/
def imageOpenG (g : GVal) (dims : ℕ) : Except PyErr GVal :=
  match g with
  | GVal.scalar x => Except.ok (GVal.arr (List.replicate dims x))
  | GVal.arr [x] => Except.ok (GVal.arr (List.replicate dims x))
  | GVal.arr _ => Except.error PyErr.typeError

/-- State threaded through the field-reading loop of
`run_TSEB_local_image` (lines 143-219): which keys ended up in
`in_data`, which in the local `temp_data`, which in the local
`res_params`, and the current `self.G_form[1]`. -/
structure LoopState where
  inKeys : List String
  tempKeys : List String
  resKeys : List String
  gval : GVal
deriving DecidableEq, Repr

/-- Result of processing one field, or of the whole loop: either the
function executed one of its `return` statements (printing an error and
returning `None`), or processing goes on with an updated state.
Uncaught python exceptions travel in the surrounding `Except`. -/
inductive LoopStep where
  | earlyReturn : LoopStep
  | cont : LoopState → LoopStep
deriving DecidableEq, Repr

/-- The `success == False` fallback of the field loop (lines 176-218):
sun angles and pressure and longwave irradiance are recomputed when
their ingredients are present, a failed mask or resistance-parameter or
generic read prints and returns, and the fields of the literal list
`["alt", "lat", "lon", "stdlon", "doy", "time"]` (note the lowercase
`"doy"`, which can never match the structure key `"DOY"`) are skipped. -/
def imageFieldFallback (res_form : Int) (st : LoopState) (f : String) : LoopStep :=
  if f = "SZA" ∨ f = "SAA" then
    if ["lat", "lon", "stdlon", "DOY", "time"].all (fun s => st.tempKeys.contains s) then
      LoopStep.cont { st with inKeys := st.inKeys ++ ["SZA", "SAA"] }
    else LoopStep.earlyReturn
  else if f = "p" then
    if st.inKeys.contains "alt" then
      LoopStep.cont { st with inKeys := st.inKeys ++ ["p"] }
    else LoopStep.earlyReturn
  else if f = "L_dn" then
    if ["ea", "T_A1", "z_T"].all (fun s => st.inKeys.contains s) then
      LoopStep.cont { st with inKeys := st.inKeys ++ ["L_dn"] }
    else LoopStep.earlyReturn
  else if (f = "KN_b" ∨ f = "KN_c" ∨ f = "KN_c_dash") ∧ res_form ≠ 0 then
    LoopStep.earlyReturn
  else if f = "input_mask" then LoopStep.earlyReturn
  else if ["alt", "lat", "lon", "stdlon", "doy", "time"].contains f then
    LoopStep.cont st
  else LoopStep.earlyReturn

/-- Processing of one field of the loop body (lines 143-218).  `gcode`
is `self.G_form[0][0]`; the `TSEB` module constants are
`G_CONSTANT = 0`, the constant-soil-net-radiation-ratio form `= 1`,
`G_TIME_DIFF = 2` (the numeric values are pinned by the literal
comparisons of the point-series path, lines 361-366).  The fields
`lat`, `lon`, `stdlon`, `DOY` and `time` are read into the local
`temp_data`, not into `in_data`; the `G` branch for the
Santanello-and-Friedl form executes `self.G_form[1] = in_data['time']`
(line 172), a lookup in `in_data`. -/
def imageProcessField (gcode res_form : Int) (dims : ℕ)
    (readOK : String → Bool) (st : LoopState) (f : String) :
    Except PyErr LoopStep :=
  if f = "lat" ∨ f = "lon" ∨ f = "stdlon" ∨ f = "DOY" ∨ f = "time" then
    if readOK f then
      Except.ok (LoopStep.cont { st with tempKeys := st.tempKeys ++ [f] })
    else Except.ok (imageFieldFallback res_form st f)
  else if f = "T_C" ∨ f = "T_S" then
    if readOK "T_R1" then
      Except.ok (LoopStep.cont { st with inKeys := st.inKeys ++ [f] })
    else Except.ok (imageFieldFallback res_form st f)
  else if f = "input_mask" then
    if readOK f then Except.ok (LoopStep.cont st)
    else Except.ok (imageFieldFallback res_form st f)
  else if f = "KN_b" ∨ f = "KN_c" ∨ f = "KN_c_dash" then
    if readOK f then
      Except.ok (LoopStep.cont { st with resKeys := st.resKeys ++ [f] })
    else Except.ok (imageFieldFallback res_form st f)
  else if f = "G" then
    if gcode = 0 ∨ gcode = 1 then
      match imageOpenG st.gval dims with
      | Except.ok g => Except.ok (LoopStep.cont { st with gval := g })
      | Except.error e => Except.error e
    else if gcode = 2 then
      if st.inKeys.contains "time" then
        Except.ok (LoopStep.cont st)
      else Except.error (PyErr.keyError "time")
    else Except.ok (LoopStep.cont st)
  else
    if readOK f then
      Except.ok (LoopStep.cont { st with inKeys := st.inKeys ++ [f] })
    else Except.ok (imageFieldFallback res_form st f)

/-- The field loop of `run_TSEB_local_image` over all fields after the
first (line 143: `for field in list(input_fields)[1:]`). -/
def imageLoop (gcode res_form : Int) (dims : ℕ) (readOK : String → Bool)
    (fields : List String) (st0 : LoopState) : Except PyErr LoopStep :=
  fields.foldl
    (fun acc f =>
      match acc with
      | Except.error e => Except.error e
      | Except.ok LoopStep.earlyReturn => Except.ok LoopStep.earlyReturn
      | Except.ok (LoopStep.cont st) => imageProcessField gcode res_form dims readOK st f)
    (Except.ok (LoopStep.cont st0))

/-- The input-processing front of `run_TSEB_local_image` (lines 108-219):
the first field of the input structure is opened inside a
`try/except Exception` block (lines 121-140).  When the structure is
empty (unknown model), `field = list(input_fields)[0]` raises
`IndexError` before `field` is bound, and the handler's own
`print('Error reading ' + input_fields[field])` (line 138) then raises
an uncaught `NameError` (`UnboundLocalError`) for the unbound `field`:
the call crashes rather than returning `None`.  A failed read of a
bound first field prints and returns `None`.  The remaining fields run
through the loop above. -/
def imageFront (model : String) (gcode res_form : Int) (dims : ℕ)
    (readOK : String → Bool) (g0 : GVal) : Except PyErr LoopStep :=
  match getInputStructure model with
  | [] => Except.error (PyErr.nameError "field")
  | f0 :: rest =>
      if readOK f0 then
        imageLoop gcode res_form dims readOK rest
          { inKeys := [f0], tempKeys := [], resKeys := [], gval := g0 }
      else Except.ok LoopStep.earlyReturn

/-! ## Concrete fixtures for witness evaluations -/

/-- A concrete element-wise collaborator instance used to evaluate the
embedding on closed inputs: the diffuse partition returns one half for
every component, the Priestley-Taylor solver returns a canopy latent
heat flux of `1` and a soil latent heat flux of `-1` (so that the bulk
`LE1` of a vegetated element is exactly zero), and every solver returns
flag `0`. -/
def collabFix : Collab :=
  { calcDifuse := fun _ _ _ =>
      { difvis := RVal.fin (1/2), difnir := RVal.fin (1/2),
        fvis := RVal.fin (1/2), fnir := RVal.fin (1/2) }
    calcRoughness := fun _ => (RVal.fin (1/10), RVal.fin (13/20))
    calcOmega0Kustas := fun _ _ _ => RVal.fin (9/10)
    calcOmegaKustas := fun _ _ _ => RVal.fin (4/5)
    calcSnCampbell := fun _ => (RVal.fin 100, RVal.fin 50)
    OSEB := fun _ =>
      { flag := RVal.fin 0, Ln_S1 := RVal.fin 31, LE_S1 := RVal.fin 2,
        H_S1 := RVal.fin 33, G1 := RVal.fin 34, R_A1 := RVal.fin 35,
        u_friction := RVal.fin 36, L := RVal.fin 37, n_iterations := RVal.fin 3 }
    TSEB_PT := fun _ =>
      { flag := RVal.fin 0, T_S1 := RVal.fin 305, T_C1 := RVal.fin 295,
        T_AC1 := RVal.fin 298, Ln_S1 := RVal.fin 41, Ln_C1 := RVal.fin 42,
        LE_C1 := RVal.fin 1, H_C1 := RVal.fin 43, LE_S1 := RVal.fin (-1),
        H_S1 := RVal.fin 44, G1 := RVal.fin 45, R_S1 := RVal.fin 46,
        R_x1 := RVal.fin 47, R_A1 := RVal.fin 48, u_friction := RVal.fin 49,
        L := RVal.fin 50, n_iterations := RVal.fin 5 }
    TSEB_2T := fun _ =>
      { flag := RVal.fin 0, T_AC1 := RVal.fin 298, Ln_S1 := RVal.fin 51,
        Ln_C1 := RVal.fin 52, LE_C1 := RVal.fin 60, H_C1 := RVal.fin 53,
        LE_S1 := RVal.fin 61, H_S1 := RVal.fin 54, G1 := RVal.fin 55,
        R_S1 := RVal.fin 56, R_x1 := RVal.fin 57, R_A1 := RVal.fin 58,
        u_friction := RVal.fin 59, L := RVal.fin 62, n_iterations := RVal.fin 7 }
    DTD := fun _ =>
      { flag := RVal.fin 0, T_S1 := RVal.fin 306, T_C1 := RVal.fin 296,
        T_AC1 := RVal.fin 299, Ln_S1 := RVal.fin 71, Ln_C1 := RVal.fin 72,
        LE_C1 := RVal.fin 73, H_C1 := RVal.fin 74, LE_S1 := RVal.fin 75,
        H_S1 := RVal.fin 76, G1 := RVal.fin 77, R_S1 := RVal.fin 78,
        R_x1 := RVal.fin 79, R_A1 := RVal.fin 80, u_friction := RVal.fin 81,
        L := RVal.fin 82, Ri := RVal.fin 83, n_iterations := RVal.fin 9 } }

/-- An input table whose every column is the constant `v`. -/
def dataConst (n : ℕ) (v : RVal) : InData n :=
  { T_R1 := fun _ => v, T_R0 := fun _ => v, T_A0 := fun _ => v,
    T_A1 := fun _ => v, T_S := fun _ => v, T_C := fun _ => v,
    VZA := fun _ => v, u := fun _ => v, ea := fun _ => v, p := fun _ => v,
    S_dn := fun _ => v, SZA := fun _ => v, L_dn := fun _ => v,
    LAI := fun _ => v, f_c := fun _ => v, h_C := fun _ => v,
    w_C := fun _ => v, f_g := fun _ => v, leaf_width := fun _ => v,
    z0_soil := fun _ => v, alpha_PT := fun _ => v, x_LAD := fun _ => v,
    landcover := fun _ => v, emis_C := fun _ => v, emis_S := fun _ => v,
    rho_vis_C := fun _ => v, tau_vis_C := fun _ => v,
    rho_nir_C := fun _ => v, tau_nir_C := fun _ => v,
    rho_vis_S := fun _ => v, rho_nir_S := fun _ => v,
    z_u := fun _ => v, z_T := fun _ => v }

/-- Single bare-soil element: `LAI = 0`, every other column `1`. -/
def inBare : InData 1 :=
  { dataConst 1 (RVal.fin 1) with LAI := fun _ => RVal.fin 0 }

/-- Single vegetated element: `LAI = 3`, `f_c = 1`, every other column `1`. -/
def inVeg : InData 1 :=
  { dataConst 1 (RVal.fin 1) with LAI := fun _ => RVal.fin 3 }

/-- An all-ones mask. -/
def maskOne (n : ℕ) : Fin n → RVal := fun _ => RVal.fin 1

/-- An all-zeros mask (every element masked out). -/
def maskZero (n : ℕ) : Fin n → RVal := fun _ => RVal.fin 0

/-- A constant soil-heat-flux driving array. -/
def gFix (n : ℕ) : Fin n → RVal := fun _ => RVal.fin (7/20)

/-- Configurations for the four model selectors exercised concretely. -/
def cfgPT : Config := { model := "TSEB_PT", gcode := 1, res_form := 0 }

/-- DTD configuration. -/
def cfgDTD : Config := { model := "DTD", gcode := 1, res_form := 0 }

/-- Configuration with a selector outside `{TSEB_PT, TSEB_2T, DTD}`. -/
def cfgBogus : Config := { model := "XSEB", gcode := 1, res_form := 0 }

/-- Two-row input table, all columns `1`. -/
def dRowA : InData 2 := dataConst 2 (RVal.fin 1)

/-- Two-row input table agreeing with `dRowA` at element 0 but differing
at element 1 in air temperature. -/
def dRowB : InData 2 :=
  { dataConst 2 (RVal.fin 1) with
    T_A1 := fun k => if (k : ℕ) = 1 then RVal.fin 9 else RVal.fin 1 }

/-- A point-series table holding every mandatory TSEB_PT column. -/
def tblFull : Table :=
  { cols := (mandatoryTSEB_PT.map (fun s => (s, [RVal.fin 1]))) }

/-- A table with the date columns but without `T_R1` (and several other
solver fields). -/
def tblNoTR1 : Table :=
  { cols := [("year", [RVal.fin 2016]), ("DOY", [RVal.fin 100]),
             ("time", [RVal.fin (21/2)])] }

/-- A table holding every mandatory TSEB_PT column except `year`. -/
def tblNoYear : Table :=
  { cols := (mandatoryTSEB_PT.filter (fun s => decide (s ≠ "year"))).map
      (fun s => (s, [RVal.fin 1])) }

/-- The `self.G_form[1]` value left behind by a successful image-path
call (used to feed a second call with the first call's mutated state). -/
def gvalAfter (r : Except PyErr LoopStep) : GVal :=
  match r with
  | Except.ok (LoopStep.cont st) => st.gval
  | _ => GVal.scalar RVal.nan

/-- Two input tables agree at element `k`: every column coincides there. -/
structure InData.AgreeAt {n : ℕ} (d1 d2 : InData n) (k : Fin n) : Prop where
  hT_R1 : d1.T_R1 k = d2.T_R1 k
  hT_R0 : d1.T_R0 k = d2.T_R0 k
  hT_A0 : d1.T_A0 k = d2.T_A0 k
  hT_A1 : d1.T_A1 k = d2.T_A1 k
  hT_S : d1.T_S k = d2.T_S k
  hT_C : d1.T_C k = d2.T_C k
  hVZA : d1.VZA k = d2.VZA k
  hu : d1.u k = d2.u k
  hea : d1.ea k = d2.ea k
  hp : d1.p k = d2.p k
  hS_dn : d1.S_dn k = d2.S_dn k
  hSZA : d1.SZA k = d2.SZA k
  hL_dn : d1.L_dn k = d2.L_dn k
  hLAI : d1.LAI k = d2.LAI k
  hf_c : d1.f_c k = d2.f_c k
  hh_C : d1.h_C k = d2.h_C k
  hw_C : d1.w_C k = d2.w_C k
  hf_g : d1.f_g k = d2.f_g k
  hleaf_width : d1.leaf_width k = d2.leaf_width k
  hz0_soil : d1.z0_soil k = d2.z0_soil k
  halpha_PT : d1.alpha_PT k = d2.alpha_PT k
  hx_LAD : d1.x_LAD k = d2.x_LAD k
  hlandcover : d1.landcover k = d2.landcover k
  hemis_C : d1.emis_C k = d2.emis_C k
  hemis_S : d1.emis_S k = d2.emis_S k
  hrho_vis_C : d1.rho_vis_C k = d2.rho_vis_C k
  htau_vis_C : d1.tau_vis_C k = d2.tau_vis_C k
  hrho_nir_C : d1.rho_nir_C k = d2.rho_nir_C k
  htau_nir_C : d1.tau_nir_C k = d2.tau_nir_C k
  hrho_vis_S : d1.rho_vis_S k = d2.rho_vis_S k
  hrho_nir_S : d1.rho_nir_S k = d2.rho_nir_S k
  hz_u : d1.z_u k = d2.z_u k
  hz_T : d1.z_T k = d2.z_T k

/-! ## Basic lemmas about the value algebra and the bulk assembly -/

theorem RVal.mul_def (x y : RVal) : x * y = RVal.mul x y := rfl

theorem RVal.add_def (x y : RVal) : x + y = RVal.add x y := rfl

theorem RVal.sub_def (x y : RVal) : x - y = RVal.sub x y := rfl

theorem RVal.div_def (x y : RVal) : x / y = RVal.div x y := rfl

/-- Multiplying by the float `1.0` is exact, also on the special values
(`np.ones(dims) * x` keeps every cell). -/
theorem RVal.one_mul_val (x : RVal) : RVal.mul (RVal.fin 1) x = x := by
  cases x <;> simp [RVal.mul]

/-- The bulk assembly leaves every non-bulk output column unchanged. -/
theorem calcBulk_keeps {n : ℕ} (o : OutData n) :
    (calcBulkFluxes o).flag = o.flag ∧ (calcBulkFluxes o).LE_C1 = o.LE_C1 ∧
    (calcBulkFluxes o).LE_S1 = o.LE_S1 ∧ (calcBulkFluxes o).Ri = o.Ri := by
  exact ⟨rfl, rfl, rfl, rfl⟩

/-- `Skyl` is written once (line 491) and never updated afterwards. -/
theorem runTSEB_Skyl (C : Collab) {n : ℕ} (cfg : Config) (gArr : Fin n → RVal)
    (resKN : List (String × (Fin n → RVal))) (d : InData n) (mask : Fin n → RVal) :
    (runTSEB C cfg gArr resKN d mask).Skyl = fun k => skylOf C d k := by
  unfold runTSEB calcBulkFluxes runTSEBPre
  split_ifs <;> rfl

/-- `S_dn_dir` is written once (line 492) and never updated afterwards. -/
theorem runTSEB_S_dn_dir (C : Collab) {n : ℕ} (cfg : Config) (gArr : Fin n → RVal)
    (resKN : List (String × (Fin n → RVal))) (d : InData n) (mask : Fin n → RVal) :
    (runTSEB C cfg gArr resKN d mask).S_dn_dir = fun k => sDnDirOf C d k := by
  unfold runTSEB calcBulkFluxes runTSEBPre
  split_ifs <;> rfl

/-- `S_dn_dif` is written once (line 493) and never updated afterwards. -/
theorem runTSEB_S_dn_dif (C : Collab) {n : ℕ} (cfg : Config) (gArr : Fin n → RVal)
    (resKN : List (String × (Fin n → RVal))) (d : InData n) (mask : Fin n → RVal) :
    (runTSEB C cfg gArr resKN d mask).S_dn_dif = fun k => sDnDifOf C d k := by
  unfold runTSEB calcBulkFluxes runTSEBPre
  split_ifs <;> rfl

/-- C2: for every element of every `run_TSEB` call, the bulk outputs
satisfy `LE1 = LE_C1 + LE_S1`, `H1 = H_C1 + H_S1`, `R_ns1 = Sn_C1 + Sn_S1`,
`R_nl1 = Ln_C1 + Ln_S1` and `R_n1 = R_ns1 + R_nl1` (net radiation is net
shortwave plus net longwave), with numpy float addition. -/
theorem claim_C2 (C : Collab) {n : ℕ} (cfg : Config) (gArr : Fin n → RVal)
    (resKN : List (String × (Fin n → RVal))) (d : InData n)
    (mask : Fin n → RVal) (k : Fin n) :
    (runTSEB C cfg gArr resKN d mask).LE1 k =
      (runTSEB C cfg gArr resKN d mask).LE_C1 k +
        (runTSEB C cfg gArr resKN d mask).LE_S1 k ∧
    (runTSEB C cfg gArr resKN d mask).H1 k =
      (runTSEB C cfg gArr resKN d mask).H_C1 k +
        (runTSEB C cfg gArr resKN d mask).H_S1 k ∧
    (runTSEB C cfg gArr resKN d mask).R_ns1 k =
      (runTSEB C cfg gArr resKN d mask).Sn_C1 k +
        (runTSEB C cfg gArr resKN d mask).Sn_S1 k ∧
    (runTSEB C cfg gArr resKN d mask).R_nl1 k =
      (runTSEB C cfg gArr resKN d mask).Ln_C1 k +
        (runTSEB C cfg gArr resKN d mask).Ln_S1 k ∧
    (runTSEB C cfg gArr resKN d mask).R_n1 k =
      (runTSEB C cfg gArr resKN d mask).R_ns1 k +
        (runTSEB C cfg gArr resKN d mask).R_nl1 k := by
  exact ⟨rfl, rfl, rfl, rfl, rfl⟩

/-- C10: for every element whose irradiance and `Skyl` are finite
numbers, the direct and diffuse components computed at lines 492-493
partition the irradiance exactly: `S_dn_dir + S_dn_dif = S_dn`. -/
theorem claim_C10 (C : Collab) {n : ℕ} (cfg : Config) (gArr : Fin n → RVal)
    (resKN : List (String × (Fin n → RVal))) (d : InData n)
    (mask : Fin n → RVal) (k : Fin n) (s q : ℚ)
    (hSkyl : (runTSEB C cfg gArr resKN d mask).Skyl k = RVal.fin s)
    (hS_dn : d.S_dn k = RVal.fin q) :
    (runTSEB C cfg gArr resKN d mask).S_dn_dir k +
      (runTSEB C cfg gArr resKN d mask).S_dn_dif k = d.S_dn k := by
  rw [runTSEB_Skyl] at hSkyl
  rw [runTSEB_S_dn_dir, runTSEB_S_dn_dif]
  simp only [sDnDirOf, sDnDifOf, hSkyl, hS_dn]
  simp only [RVal.add_def, RVal.sub_def, RVal.mul_def, RVal.add, RVal.sub,
    RVal.neg, RVal.mul]
  congr 1
  ring

/-- If the vegetated branch did not select element `k`, its columns keep
their earlier value whatever the model dispatch produced. -/
theorem maskedVal_false (vf : Option RVal) (b : RVal) :
    maskedVal false vf b = b := by
  cases vf <;> simp [maskedVal]

/-- A bare-soil element under the mask: every soil-side output equals
the `TSEB.OSEB` result on the element's soil boundary conditions and the
four canopy columns are written as zero. -/
theorem bareSoilOseb (C : Collab) {n : ℕ} (cfg : Config) (gArr : Fin n → RVal)
    (resKN : List (String × (Fin n → RVal))) (d : InData n)
    (mask : Fin n → RVal) (k : Fin n)
    (hveg : noVegOf d k = true) (hmask : mask k = RVal.fin 1) :
    (runTSEB C cfg gArr resKN d mask).flag k = (C.OSEB (osebArgsOf C cfg gArr d k)).flag ∧
    (runTSEB C cfg gArr resKN d mask).Ln_S1 k = (C.OSEB (osebArgsOf C cfg gArr d k)).Ln_S1 ∧
    (runTSEB C cfg gArr resKN d mask).LE_S1 k = (C.OSEB (osebArgsOf C cfg gArr d k)).LE_S1 ∧
    (runTSEB C cfg gArr resKN d mask).H_S1 k = (C.OSEB (osebArgsOf C cfg gArr d k)).H_S1 ∧
    (runTSEB C cfg gArr resKN d mask).G1 k = (C.OSEB (osebArgsOf C cfg gArr d k)).G1 ∧
    (runTSEB C cfg gArr resKN d mask).R_A1 k = (C.OSEB (osebArgsOf C cfg gArr d k)).R_A1 ∧
    (runTSEB C cfg gArr resKN d mask).u_friction k = (C.OSEB (osebArgsOf C cfg gArr d k)).u_friction ∧
    (runTSEB C cfg gArr resKN d mask).L k = (C.OSEB (osebArgsOf C cfg gArr d k)).L ∧
    (runTSEB C cfg gArr resKN d mask).n_iterations k = (C.OSEB (osebArgsOf C cfg gArr d k)).n_iterations ∧
    (runTSEB C cfg gArr resKN d mask).Sn_S1 k = snSBareOf C d k ∧
    (runTSEB C cfg gArr resKN d mask).Sn_C1 k = RVal.fin 0 ∧
    (runTSEB C cfg gArr resKN d mask).Ln_C1 k = RVal.fin 0 ∧
    (runTSEB C cfg gArr resKN d mask).LE_C1 k = RVal.fin 0 ∧
    (runTSEB C cfg gArr resKN d mask).H_C1 k = RVal.fin 0 := by
  have hiS : iSoilOf d mask k = true := by
    simp [iSoilOf, hveg, RVal.eq1, hmask]
  have hiV : iVegOf d mask k = false := by
    simp [iVegOf, hveg]
  refine ⟨?_, ?_, ?_, ?_, ?_, ?_, ?_, ?_, ?_, ?_, ?_, ?_, ?_, ?_⟩ <;>
    simp [runTSEB, calcBulkFluxes, runTSEBPre, hiV, hiS, maskedVal_false,
      soilVal, osebResOf, snSColOf, snCColOf]

/-- C1: for every element whose fractional cover tends to zero and
leaf-area index tends to zero (in the code: `f_c <= 0.01`, `LAI <= 0`,
or `LAI` is NaN) and which lies under the mask, the two-source solve
produces soil-side outputs exactly equal (hence within any tolerance) to
the single-source OSEB solver's outputs for the same soil boundary
conditions, and the canopy-side `Sn_C1`, `Ln_C1`, `LE_C1` and `H_C1` of
such an element are zero. -/
theorem claim_C1 (C : Collab) {n : ℕ} (cfg : Config) (gArr : Fin n → RVal)
    (resKN : List (String × (Fin n → RVal))) (d : InData n)
    (mask : Fin n → RVal) (k : Fin n)
    (hveg : noVegOf d k = true) (hmask : mask k = RVal.fin 1) :
    (runTSEB C cfg gArr resKN d mask).flag k = (C.OSEB (osebArgsOf C cfg gArr d k)).flag ∧
    (runTSEB C cfg gArr resKN d mask).Ln_S1 k = (C.OSEB (osebArgsOf C cfg gArr d k)).Ln_S1 ∧
    (runTSEB C cfg gArr resKN d mask).LE_S1 k = (C.OSEB (osebArgsOf C cfg gArr d k)).LE_S1 ∧
    (runTSEB C cfg gArr resKN d mask).H_S1 k = (C.OSEB (osebArgsOf C cfg gArr d k)).H_S1 ∧
    (runTSEB C cfg gArr resKN d mask).G1 k = (C.OSEB (osebArgsOf C cfg gArr d k)).G1 ∧
    (runTSEB C cfg gArr resKN d mask).R_A1 k = (C.OSEB (osebArgsOf C cfg gArr d k)).R_A1 ∧
    (runTSEB C cfg gArr resKN d mask).u_friction k = (C.OSEB (osebArgsOf C cfg gArr d k)).u_friction ∧
    (runTSEB C cfg gArr resKN d mask).L k = (C.OSEB (osebArgsOf C cfg gArr d k)).L ∧
    (runTSEB C cfg gArr resKN d mask).n_iterations k = (C.OSEB (osebArgsOf C cfg gArr d k)).n_iterations ∧
    (runTSEB C cfg gArr resKN d mask).Sn_S1 k = snSBareOf C d k ∧
    (runTSEB C cfg gArr resKN d mask).Sn_C1 k = RVal.fin 0 ∧
    (runTSEB C cfg gArr resKN d mask).Ln_C1 k = RVal.fin 0 ∧
    (runTSEB C cfg gArr resKN d mask).LE_C1 k = RVal.fin 0 ∧
    (runTSEB C cfg gArr resKN d mask).H_C1 k = RVal.fin 0 :=
  bareSoilOseb C cfg gArr resKN d mask k hveg hmask

/-- Witness for C1: a concrete bare-soil element (`LAI = 0`) under an
all-ones mask, with the concrete collaborator instance. -/
theorem claim_C1_witness :
    noVegOf inBare 0 = true ∧ maskOne 1 0 = RVal.fin 1 ∧
    (runTSEB collabFix cfgPT (gFix 1) [] inBare (maskOne 1)).LE_S1 0 = RVal.fin 2 ∧
    (runTSEB collabFix cfgPT (gFix 1) [] inBare (maskOne 1)).H_C1 0 = RVal.fin 0 := by
  have hveg : noVegOf inBare 0 = true := by
    simp [noVegOf, inBare, dataConst, RVal.le, RVal.isnan]
  have h := claim_C1 collabFix cfgPT (gFix 1) [] inBare (maskOne 1) 0 hveg rfl
  refine ⟨hveg, rfl, ?_, h.2.2.2.2.2.2.2.2.2.2.2.2.2⟩
  rw [h.2.2.1]
  rfl

/-- The single concrete vegetated element is selected by the vegetated
branch under the all-ones mask. -/
theorem iVeg_inVeg : iVegOf inVeg (maskOne 1) 0 = true := by
  simp [iVegOf, noVegOf, inVeg, dataConst, RVal.le, RVal.isnan, maskOne, RVal.eq1]
  norm_num

/-- The concrete `Skyl` value of the fixture collaborator. -/
theorem skyl_fix (d : InData 1) : skylOf collabFix d 0 = RVal.fin (1/2) := by
  simp [skylOf, difuseOf, collabFix, RVal.add_def, RVal.mul_def, RVal.add, RVal.mul]
  norm_num

/-- Witness for C10: the concrete vegetated element with the fixture
collaborator has `Skyl = 1/2` and the computed components re-sum to the
irradiance. -/
theorem claim_C10_witness :
    (runTSEB collabFix cfgPT (gFix 1) [] inVeg (maskOne 1)).Skyl 0 = RVal.fin (1/2) ∧
    inVeg.S_dn 0 = RVal.fin 1 ∧
    (runTSEB collabFix cfgPT (gFix 1) [] inVeg (maskOne 1)).S_dn_dir 0 +
      (runTSEB collabFix cfgPT (gFix 1) [] inVeg (maskOne 1)).S_dn_dif 0 =
        inVeg.S_dn 0 := by
  have hS : (runTSEB collabFix cfgPT (gFix 1) [] inVeg (maskOne 1)).Skyl 0 =
      RVal.fin (1/2) := by
    rw [runTSEB_Skyl]
    exact skyl_fix inVeg
  exact ⟨hS, rfl,
    claim_C10 collabFix cfgPT (gFix 1) [] inVeg (maskOne 1) 0 (1/2) 1 hS rfl⟩

/-- C7 (amended): `LE_partition` is assembled as the unguarded IEEE
division `LE_C1 / LE1` (line 715): it is `+inf`/`-inf` when `LE_C1` is
nonzero and `LE1` is zero and NaN for `0/0`, and the assembly of lines
713-720 does not modify the element's flag (the flag keeps the value the
solver branches produced); the call completes for every element. -/
theorem claim_C7_amended (C : Collab) {n : ℕ} (cfg : Config) (gArr : Fin n → RVal)
    (resKN : List (String × (Fin n → RVal))) (d : InData n)
    (mask : Fin n → RVal) (k : Fin n) :
    (runTSEB C cfg gArr resKN d mask).LE_partition k =
      RVal.div ((runTSEB C cfg gArr resKN d mask).LE_C1 k)
        ((runTSEB C cfg gArr resKN d mask).LE1 k) ∧
    (runTSEB C cfg gArr resKN d mask).flag k =
      (runTSEBPre C cfg gArr resKN d mask).flag k ∧
    RVal.div (RVal.fin 0) (RVal.fin 0) = RVal.nan ∧
    RVal.div (RVal.fin 1) (RVal.fin 0) = RVal.pinf ∧
    RVal.div (RVal.fin (-1)) (RVal.fin 0) = RVal.ninf := by
  refine ⟨rfl, rfl, by simp [RVal.div], ?_, ?_⟩ <;> norm_num [RVal.div]

/-- Counterexample for C7: a vegetated element whose solver returns
`LE_C1 = 1`, `LE_S1 = -1`, so `LE1 = 0` and the division is `+inf` — a
non-finite value that is not the NaN sentinel — while the element's flag
keeps the solver value `0`: no numerical failure is recorded. -/
theorem claim_C7_counterexample :
    (runTSEB collabFix cfgPT (gFix 1) [] inVeg (maskOne 1)).LE_partition 0 = RVal.pinf ∧
    RVal.pinf ≠ RVal.nan ∧
    (runTSEB collabFix cfgPT (gFix 1) [] inVeg (maskOne 1)).flag 0 = RVal.fin 0 := by
  have hC : (runTSEB collabFix cfgPT (gFix 1) [] inVeg (maskOne 1)).LE_C1 0 =
      RVal.fin 1 := by
    show maskedVal (iVegOf inVeg (maskOne 1) 0)
        ((vegUpdOf collabFix cfgPT (gFix 1) [] inVeg (maskOne 1) 0).map
          (fun v => v.LE_C1))
        (soilVal (iSoilOf inVeg (maskOne 1) 0) (RVal.fin 0)) = RVal.fin 1
    rw [iVeg_inVeg]
    rfl
  have hS : (runTSEB collabFix cfgPT (gFix 1) [] inVeg (maskOne 1)).LE_S1 0 =
      RVal.fin (-1) := by
    show maskedVal (iVegOf inVeg (maskOne 1) 0)
        ((vegUpdOf collabFix cfgPT (gFix 1) [] inVeg (maskOne 1) 0).map
          (fun v => v.LE_S1))
        (soilVal (iSoilOf inVeg (maskOne 1) 0)
          (osebResOf collabFix cfgPT (gFix 1) inVeg 0).LE_S1) = RVal.fin (-1)
    rw [iVeg_inVeg]
    rfl
  have hpart : (runTSEB collabFix cfgPT (gFix 1) [] inVeg (maskOne 1)).LE_partition 0 =
      RVal.div ((runTSEB collabFix cfgPT (gFix 1) [] inVeg (maskOne 1)).LE_C1 0)
        (RVal.add ((runTSEB collabFix cfgPT (gFix 1) [] inVeg (maskOne 1)).LE_C1 0)
          ((runTSEB collabFix cfgPT (gFix 1) [] inVeg (maskOne 1)).LE_S1 0)) := rfl
  refine ⟨?_, by simp, ?_⟩
  · rw [hpart, hC, hS]
    norm_num [RVal.add, RVal.div]
  · show maskedVal (iVegOf inVeg (maskOne 1) 0)
        ((vegUpdOf collabFix cfgPT (gFix 1) [] inVeg (maskOne 1) 0).map
          (fun v => v.flag))
        (soilVal (iSoilOf inVeg (maskOne 1) 0)
          (osebResOf collabFix cfgPT (gFix 1) inVeg 0).flag) = RVal.fin 0
    rw [iVeg_inVeg]
    rfl

set_option maxHeartbeats 3200000 in
/-- C9 (amended): every output column written under the element mask
keeps its NaN initialisation at an element whose mask is not 1 — the
solver branches never write there, and the bulk sums propagate the NaN —
and for a non-DTD model the `Ri` column stays at its NaN initialisation;
only the five radiation-partition columns (`fvis`, `fnir`, `Skyl`,
`S_dn_dir`, `S_dn_dif`), computed for all elements at lines 487-493, and
the DTD `Ri` replacement bypass the mask. -/
theorem claim_C9_amended (C : Collab) {n : ℕ} (cfg : Config) (gArr : Fin n → RVal)
    (resKN : List (String × (Fin n → RVal))) (d : InData n)
    (mask : Fin n → RVal) (k : Fin n)
    (hmask : mask k ≠ RVal.fin 1) :
    (runTSEB C cfg gArr resKN d mask).flag k = RVal.nan ∧
    (runTSEB C cfg gArr resKN d mask).Ln_S1 k = RVal.nan ∧
    (runTSEB C cfg gArr resKN d mask).LE_S1 k = RVal.nan ∧
    (runTSEB C cfg gArr resKN d mask).H_S1 k = RVal.nan ∧
    (runTSEB C cfg gArr resKN d mask).G1 k = RVal.nan ∧
    (runTSEB C cfg gArr resKN d mask).R_A1 k = RVal.nan ∧
    (runTSEB C cfg gArr resKN d mask).u_friction k = RVal.nan ∧
    (runTSEB C cfg gArr resKN d mask).L k = RVal.nan ∧
    (runTSEB C cfg gArr resKN d mask).n_iterations k = RVal.nan ∧
    (runTSEB C cfg gArr resKN d mask).Sn_C1 k = RVal.nan ∧
    (runTSEB C cfg gArr resKN d mask).Sn_S1 k = RVal.nan ∧
    (runTSEB C cfg gArr resKN d mask).Ln_C1 k = RVal.nan ∧
    (runTSEB C cfg gArr resKN d mask).LE_C1 k = RVal.nan ∧
    (runTSEB C cfg gArr resKN d mask).H_C1 k = RVal.nan ∧
    (runTSEB C cfg gArr resKN d mask).z_0M k = RVal.nan ∧
    (runTSEB C cfg gArr resKN d mask).d_0 k = RVal.nan ∧
    (runTSEB C cfg gArr resKN d mask).T_S1 k = RVal.nan ∧
    (runTSEB C cfg gArr resKN d mask).T_C1 k = RVal.nan ∧
    (runTSEB C cfg gArr resKN d mask).T_AC1 k = RVal.nan ∧
    (runTSEB C cfg gArr resKN d mask).R_S1 k = RVal.nan ∧
    (runTSEB C cfg gArr resKN d mask).R_x1 k = RVal.nan ∧
    (runTSEB C cfg gArr resKN d mask).LE1 k = RVal.nan ∧
    (runTSEB C cfg gArr resKN d mask).LE_partition k = RVal.nan ∧
    (runTSEB C cfg gArr resKN d mask).H1 k = RVal.nan ∧
    (runTSEB C cfg gArr resKN d mask).R_ns1 k = RVal.nan ∧
    (runTSEB C cfg gArr resKN d mask).R_nl1 k = RVal.nan ∧
    (runTSEB C cfg gArr resKN d mask).R_n1 k = RVal.nan ∧
    (runTSEB C cfg gArr resKN d mask).delta_R_n1 k = RVal.nan ∧
    (runTSEB C cfg gArr resKN d mask).albedo1 k = RVal.nan ∧
    (runTSEB C cfg gArr resKN d mask).omega0 k = RVal.nan ∧
    (runTSEB C cfg gArr resKN d mask).alpha k = RVal.nan ∧
    (runTSEB C cfg gArr resKN d mask).theta_s1 k = RVal.nan ∧
    (runTSEB C cfg gArr resKN d mask).F k = RVal.nan ∧
    (cfg.model ≠ "DTD" →
      (runTSEB C cfg gArr resKN d mask).Ri = List.replicate n RVal.nan) := by
  have hm : RVal.eq1 (mask k) = false := by
    simp [RVal.eq1, hmask]
  have hiS : iSoilOf d mask k = false := by
    simp [iSoilOf, hm]
  have hiV : iVegOf d mask k = false := by
    simp [iVegOf, hm]
  refine ⟨?_, ?_, ?_, ?_, ?_, ?_, ?_, ?_, ?_, ?_, ?_, ?_, ?_, ?_, ?_, ?_, ?_,
    ?_, ?_, ?_, ?_, ?_, ?_, ?_, ?_, ?_, ?_, ?_, ?_, ?_, ?_, ?_, ?_, ?_⟩ <;>
    first
      | (intro hdtd
         simp [runTSEB, calcBulkFluxes, runTSEBPre, hdtd])
      | simp [runTSEB, calcBulkFluxes, runTSEBPre, hiV, hiS, maskedVal_false,
          soilVal, snSColOf, snCColOf, z0MColOf, d0ColOf, RVal.add_def,
          RVal.div_def, RVal.add, RVal.div]

/-- Counterexample for C9: with every element masked out, `Skyl` is
still computed (a number, not the NaN initialisation), and under DTD the
`Ri` array is replaced by the solver's compressed result — here the
empty array, no longer the one-element NaN initialisation. -/
theorem claim_C9_counterexample :
    (runTSEB collabFix cfgDTD (gFix 1) [] inVeg (maskZero 1)).Skyl 0 = RVal.fin (1/2) ∧
    RVal.fin (1/2) ≠ RVal.nan ∧
    (runTSEB collabFix cfgDTD (gFix 1) [] inVeg (maskZero 1)).Ri = [] ∧
    ([] : List RVal) ≠ List.replicate 1 RVal.nan := by
  refine ⟨?_, by simp, ?_, by simp⟩
  · rw [runTSEB_Skyl]
    exact skyl_fix inVeg
  · simp [runTSEB, calcBulkFluxes, runTSEBPre, cfgDTD, iVegOf, RVal.eq1,
      maskZero, List.finRange, List.filter]

/-- Witness for C9: the masked-out concrete element keeps NaN in its
flag and flux outputs. -/
theorem claim_C9_witness :
    maskZero 1 0 ≠ RVal.fin 1 ∧
    (runTSEB collabFix cfgPT (gFix 1) [] inVeg (maskZero 1)).flag 0 = RVal.nan ∧
    (runTSEB collabFix cfgPT (gFix 1) [] inVeg (maskZero 1)).LE1 0 = RVal.nan ∧
    (runTSEB collabFix cfgPT (gFix 1) [] inVeg (maskZero 1)).Ri =
      List.replicate 1 RVal.nan := by
  have hm : maskZero 1 0 ≠ RVal.fin 1 := by simp [maskZero]
  have h := claim_C9_amended collabFix cfgPT (gFix 1) [] inVeg (maskZero 1) 0 hm
  exact ⟨hm, h.1, h.2.2.2.2.2.2.2.2.2.2.2.2.2.2.2.2.2.2.2.2.2.1,
    h.2.2.2.2.2.2.2.2.2.2.2.2.2.2.2.2.2.2.2.2.2.2.2.2.2.2.2.2.2.2.2.2.2 (by simp [cfgPT])⟩

/-- C8: `run_TSEB` is element-wise.  For two input tables (same mask,
same configuration) that agree at element `k` — including the
per-element soil-heat-flux driving value and resistance parameters — all
flux, temperature, resistance, roughness, flag and iteration-count
outputs agree at `k`: no other element's physical inputs influence
element `k` (the external collaborators being element-wise by the
design's data-parallel model).  The DTD `Ri` array, which is not among
the claim's outputs, is excluded: its wholesale compressed assignment is
not element-wise. -/
theorem claim_C8 (C : Collab) {n : ℕ} (cfg : Config)
    (gArr1 gArr2 : Fin n → RVal)
    (resKN1 resKN2 : List (String × (Fin n → RVal)))
    (d1 d2 : InData n) (mask : Fin n → RVal) (k : Fin n)
    (h : InData.AgreeAt d1 d2 k)
    (hg : gArr1 k = gArr2 k)
    (hr : resAtOf resKN1 k = resAtOf resKN2 k) :
    (runTSEB C cfg gArr1 resKN1 d1 mask).flag k = (runTSEB C cfg gArr2 resKN2 d2 mask).flag k ∧
    (runTSEB C cfg gArr1 resKN1 d1 mask).LE_C1 k = (runTSEB C cfg gArr2 resKN2 d2 mask).LE_C1 k ∧
    (runTSEB C cfg gArr1 resKN1 d1 mask).LE_S1 k = (runTSEB C cfg gArr2 resKN2 d2 mask).LE_S1 k ∧
    (runTSEB C cfg gArr1 resKN1 d1 mask).LE1 k = (runTSEB C cfg gArr2 resKN2 d2 mask).LE1 k ∧
    (runTSEB C cfg gArr1 resKN1 d1 mask).LE_partition k = (runTSEB C cfg gArr2 resKN2 d2 mask).LE_partition k ∧
    (runTSEB C cfg gArr1 resKN1 d1 mask).H_C1 k = (runTSEB C cfg gArr2 resKN2 d2 mask).H_C1 k ∧
    (runTSEB C cfg gArr1 resKN1 d1 mask).H_S1 k = (runTSEB C cfg gArr2 resKN2 d2 mask).H_S1 k ∧
    (runTSEB C cfg gArr1 resKN1 d1 mask).H1 k = (runTSEB C cfg gArr2 resKN2 d2 mask).H1 k ∧
    (runTSEB C cfg gArr1 resKN1 d1 mask).G1 k = (runTSEB C cfg gArr2 resKN2 d2 mask).G1 k ∧
    (runTSEB C cfg gArr1 resKN1 d1 mask).Sn_C1 k = (runTSEB C cfg gArr2 resKN2 d2 mask).Sn_C1 k ∧
    (runTSEB C cfg gArr1 resKN1 d1 mask).Sn_S1 k = (runTSEB C cfg gArr2 resKN2 d2 mask).Sn_S1 k ∧
    (runTSEB C cfg gArr1 resKN1 d1 mask).Ln_C1 k = (runTSEB C cfg gArr2 resKN2 d2 mask).Ln_C1 k ∧
    (runTSEB C cfg gArr1 resKN1 d1 mask).Ln_S1 k = (runTSEB C cfg gArr2 resKN2 d2 mask).Ln_S1 k ∧
    (runTSEB C cfg gArr1 resKN1 d1 mask).R_ns1 k = (runTSEB C cfg gArr2 resKN2 d2 mask).R_ns1 k ∧
    (runTSEB C cfg gArr1 resKN1 d1 mask).R_nl1 k = (runTSEB C cfg gArr2 resKN2 d2 mask).R_nl1 k ∧
    (runTSEB C cfg gArr1 resKN1 d1 mask).R_n1 k = (runTSEB C cfg gArr2 resKN2 d2 mask).R_n1 k ∧
    (runTSEB C cfg gArr1 resKN1 d1 mask).delta_R_n1 k = (runTSEB C cfg gArr2 resKN2 d2 mask).delta_R_n1 k ∧
    (runTSEB C cfg gArr1 resKN1 d1 mask).T_C1 k = (runTSEB C cfg gArr2 resKN2 d2 mask).T_C1 k ∧
    (runTSEB C cfg gArr1 resKN1 d1 mask).T_S1 k = (runTSEB C cfg gArr2 resKN2 d2 mask).T_S1 k ∧
    (runTSEB C cfg gArr1 resKN1 d1 mask).T_AC1 k = (runTSEB C cfg gArr2 resKN2 d2 mask).T_AC1 k ∧
    (runTSEB C cfg gArr1 resKN1 d1 mask).R_A1 k = (runTSEB C cfg gArr2 resKN2 d2 mask).R_A1 k ∧
    (runTSEB C cfg gArr1 resKN1 d1 mask).R_x1 k = (runTSEB C cfg gArr2 resKN2 d2 mask).R_x1 k ∧
    (runTSEB C cfg gArr1 resKN1 d1 mask).R_S1 k = (runTSEB C cfg gArr2 resKN2 d2 mask).R_S1 k ∧
    (runTSEB C cfg gArr1 resKN1 d1 mask).G1 k = (runTSEB C cfg gArr2 resKN2 d2 mask).G1 k ∧
    (runTSEB C cfg gArr1 resKN1 d1 mask).u_friction k = (runTSEB C cfg gArr2 resKN2 d2 mask).u_friction k ∧
    (runTSEB C cfg gArr1 resKN1 d1 mask).L k = (runTSEB C cfg gArr2 resKN2 d2 mask).L k ∧
    (runTSEB C cfg gArr1 resKN1 d1 mask).z_0M k = (runTSEB C cfg gArr2 resKN2 d2 mask).z_0M k ∧
    (runTSEB C cfg gArr1 resKN1 d1 mask).d_0 k = (runTSEB C cfg gArr2 resKN2 d2 mask).d_0 k ∧
    (runTSEB C cfg gArr1 resKN1 d1 mask).Skyl k = (runTSEB C cfg gArr2 resKN2 d2 mask).Skyl k ∧
    (runTSEB C cfg gArr1 resKN1 d1 mask).flag k = (runTSEB C cfg gArr2 resKN2 d2 mask).flag k ∧
    (runTSEB C cfg gArr1 resKN1 d1 mask).n_iterations k = (runTSEB C cfg gArr2 resKN2 d2 mask).n_iterations k := by
  have hdif : difuseOf C d1 k = difuseOf C d2 k := by
    unfold difuseOf
    rw [h.hS_dn, h.hSZA, h.hp]
  have hskyl : skylOf C d1 k = skylOf C d2 k := by
    unfold skylOf
    rw [hdif]
  have hdir : sDnDirOf C d1 k = sDnDirOf C d2 k := by
    unfold sDnDirOf
    rw [h.hS_dn, hskyl]
  have hdifu : sDnDifOf C d1 k = sDnDifOf C d2 k := by
    unfold sDnDifOf
    rw [h.hS_dn, hskyl]
  have hnoveg : noVegOf d1 k = noVegOf d2 k := by
    unfold noVegOf
    rw [h.hf_c, h.hLAI]
  have hiS : iSoilOf d1 mask k = iSoilOf d2 mask k := by
    unfold iSoilOf
    rw [hnoveg]
  have hiV : iVegOf d1 mask k = iVegOf d2 mask k := by
    unfold iVegOf
    rw [hnoveg]
  have hspectra : spectraGrdOf C d1 k = spectraGrdOf C d2 k := by
    unfold spectraGrdOf
    rw [hdif, h.hrho_vis_S, h.hrho_nir_S]
  have hsnbare : snSBareOf C d1 k = snSBareOf C d2 k := by
    unfold snSBareOf
    rw [hspectra, hdir, hdifu]
  have htsk : tSKOf cfg d1 k = tSKOf cfg d2 k := by
    unfold tSKOf
    rw [h.hT_R1, h.hT_S]
  have ht0 : t0KOf cfg d1 k = t0KOf cfg d2 k := by
    unfold t0KOf
    rw [h.hT_R0, h.hT_A0]
  have hoseb : osebArgsOf C cfg gArr1 d1 k = osebArgsOf C cfg gArr2 d2 k := by
    unfold osebArgsOf
    rw [htsk, ht0, h.hT_A1, h.hu, h.hea, h.hp, hsnbare, h.hL_dn, h.hemis_S,
      h.hz0_soil, h.hz_u, h.hz_T, hg]
  have hosr : osebResOf C cfg gArr1 d1 k = osebResOf C cfg gArr2 d2 k := by
    unfold osebResOf
    rw [hoseb]
  have hrough : roughOf C d1 k = roughOf C d2 k := by
    unfold roughOf
    rw [h.hLAI, h.hh_C, h.hw_C, h.hlandcover, h.hf_c]
  have hF : fColOf d1 mask k = fColOf d2 mask k := by
    unfold fColOf
    rw [hiV, h.hLAI, h.hf_c]
  have hom0 : omega0Of C d1 mask k = omega0Of C d2 mask k := by
    unfold omega0Of
    rw [hiV, h.hLAI, h.hf_c, h.hx_LAD]
  have hom : omegaOf C d1 mask k = omegaOf C d2 mask k := by
    unfold omegaOf
    rw [hiV, hom0, h.hSZA, h.hw_C]
  have hlai : laiEffOf C d1 mask k = laiEffOf C d2 mask k := by
    unfold laiEffOf
    rw [hF, hom]
  have hsnveg : snVegOf C d1 mask k = snVegOf C d2 mask k := by
    unfold snVegOf
    rw [h.hLAI, h.hSZA, hdir, hdifu, hdif, h.hrho_vis_C, h.htau_vis_C,
      h.hrho_nir_C, h.htau_nir_C, h.hrho_vis_S, h.hrho_nir_S, h.hx_LAD, hlai]
  have hz0 : z0MColOf C d1 mask k = z0MColOf C d2 mask k := by
    unfold z0MColOf
    rw [hiV, hrough, hiS, h.hz0_soil]
  have hd0 : d0ColOf C d1 mask k = d0ColOf C d2 mask k := by
    unfold d0ColOf
    rw [hiV, hrough, hiS, h.hz0_soil]
  have hsnC : snCColOf C d1 mask k = snCColOf C d2 mask k := by
    unfold snCColOf
    rw [hiV, hsnveg, hiS]
  have hsnS : snSColOf C d1 mask k = snSColOf C d2 mask k := by
    unfold snSColOf
    rw [hiV, hsnveg, hiS, hsnbare]
  have hpt : ptArgsOf C cfg gArr1 resKN1 d1 mask k = ptArgsOf C cfg gArr2 resKN2 d2 mask k := by
    unfold ptArgsOf
    rw [h.hT_R1, h.hVZA, h.hT_A1, h.hu, h.hea, h.hp, hsnC, hsnS, h.hL_dn,
      h.hLAI, h.hh_C, h.hemis_C, h.hemis_S, hz0, hd0, h.hz_u, h.hz_T, h.hf_c,
      h.hf_g, h.hw_C, h.hleaf_width, h.hz0_soil, h.halpha_PT, h.hx_LAD, hg, hr]
  have hdtd : dtdArgsOf C cfg gArr1 resKN1 d1 mask k = dtdArgsOf C cfg gArr2 resKN2 d2 mask k := by
    unfold dtdArgsOf
    rw [h.hT_R0, h.hT_R1, h.hVZA, h.hT_A0, h.hT_A1, h.hu, h.hea, h.hp, hsnC,
      hsnS, h.hL_dn, h.hLAI, h.hh_C, h.hemis_C, h.hemis_S, hz0, hd0, h.hz_u,
      h.hz_T, h.hf_c, h.hw_C, h.hf_g, h.hleaf_width, h.hz0_soil, h.halpha_PT,
      h.hx_LAD, hg, hr]
  have ht2 : t2ArgsOf C cfg gArr1 resKN1 d1 mask k = t2ArgsOf C cfg gArr2 resKN2 d2 mask k := by
    unfold t2ArgsOf
    rw [h.hT_C, h.hT_S, h.hT_A1, h.hu, h.hea, h.hp, hsnC, hsnS, h.hL_dn,
      h.hLAI, h.hh_C, h.hemis_C, h.hemis_S, hz0, hd0, h.hz_u, h.hz_T, h.hf_c,
      h.hf_g, h.hw_C, h.hleaf_width, h.hz0_soil, h.halpha_PT, h.hx_LAD, hg, hr]
  have hveg : vegUpdOf C cfg gArr1 resKN1 d1 mask k = vegUpdOf C cfg gArr2 resKN2 d2 mask k := by
    unfold vegUpdOf
    rw [hdtd, hpt, ht2]
  refine ⟨?_, ?_, ?_, ?_, ?_, ?_, ?_, ?_, ?_, ?_, ?_, ?_, ?_, ?_, ?_, ?_, ?_,
    ?_, ?_, ?_, ?_, ?_, ?_, ?_, ?_, ?_, ?_, ?_, ?_, ?_, ?_⟩ <;>
    simp only [runTSEB, calcBulkFluxes, runTSEBPre, hiV, hiS, hveg, hosr,
      hsnC, hsnS, hz0, hd0, hskyl, hdif, hdir, hdifu]

/-- Witness for C8: two concrete two-element tables that differ at
element 1 but agree at element 0 give the same canopy latent heat flux
at element 0. -/
theorem claim_C8_witness :
    dRowA.T_A1 1 ≠ dRowB.T_A1 1 ∧
    (runTSEB collabFix cfgPT (gFix 2) [] dRowA (maskOne 2)).LE_C1 0 =
      (runTSEB collabFix cfgPT (gFix 2) [] dRowB (maskOne 2)).LE_C1 0 := by
  refine ⟨by norm_num [dRowA, dRowB, dataConst], ?_⟩
  exact (claim_C8 collabFix cfgPT (gFix 2) (gFix 2) [] [] dRowA dRowB
    (maskOne 2) 0 (by constructor <;> rfl) rfl rfl).2.1

/-- C4 (amended): a point-series input table that contains the
date-index columns (`year`, `DOY`, `time`) but lacks some other
mandatory column of the selected model variant is rejected at the
boundary: `run_TSEB_point_series_array` returns `(None, None)` before
the solver runs and writes no output file.  (If a date-index column
itself is missing, the call instead raises `KeyError` during date
composition, line 298-302 — see the counterexample.) -/
theorem claim_C4_amended (model : String) (t : Table)
    (_hm : model = "TSEB_PT" ∨ model = "DTD" ∨ model = "TSEB_2T")
    (hy : t.hasCol "year" = true) (hD : t.hasCol "DOY" = true)
    (hti : t.hasCol "time" = true)
    (hmiss : requiredDataPresent model t = false) :
    psFrontOutcome model t = Except.ok PSRun.rejected := by
  unfold psFrontOutcome
  simp [hy, hD, hti, hmiss]

/-- Witness for C4: a table with only the date columns lacks `T_R1` (and
other mandatory fields) and is rejected with `(None, None)`. -/
theorem claim_C4_witness :
    requiredDataPresent "TSEB_PT" tblNoTR1 = false ∧
    psFrontOutcome "TSEB_PT" tblNoTR1 = Except.ok PSRun.rejected := by
  have hmiss : requiredDataPresent "TSEB_PT" tblNoTR1 = false := rfl
  exact ⟨hmiss,
    claim_C4_amended "TSEB_PT" tblNoTR1 (Or.inl rfl) rfl rfl rfl hmiss⟩

/-- Counterexample for C4: a table with every mandatory TSEB_PT column
except `year` is a table lacking a mandatory column, yet the call raises
`KeyError('year')` inside `compose_date` (line 299) instead of returning
`(None, None)`. -/
theorem claim_C4_counterexample :
    psFrontOutcome "TSEB_PT" tblNoYear = Except.error (PyErr.keyError "year") ∧
    psFrontOutcome "TSEB_PT" tblNoYear ≠ Except.ok PSRun.rejected ∧
    tblNoYear.hasCol "year" = false ∧
    tblNoYear.hasCol "T_R1" = true := by
  have h1 : psFrontOutcome "TSEB_PT" tblNoYear =
      Except.error (PyErr.keyError "year") := rfl
  exact ⟨h1, by simp [h1], rfl, rfl⟩

/-- C5 (amended): neither entry path runs the solver on a selector
outside `{TSEB_PT, TSEB_2T, DTD}`, but only the point-series path
rejects it gracefully, returning `(None, None)` through
`_required_data_present`.  The image path crashes: the input structure
is empty, `list(input_fields)[0]` raises `IndexError` before `field` is
bound, and the `except` handler's `input_fields[field]` (line 138) then
raises an uncaught `NameError` for the unbound `field`.  `run_TSEB`
itself does not reject an unknown selector either: its bare-soil
temperature selection falls into the final `else` (using `T_S`, line
525) and the branch still produces OSEB fluxes for bare-soil elements;
only the vegetated dispatch produces nothing, so vegetated elements
keep NaN. -/
theorem claim_C5_amended (model : String)
    (hm1 : model ≠ "TSEB_PT") (hm2 : model ≠ "DTD") (hm3 : model ≠ "TSEB_2T") :
    (∀ t : Table, t.hasCol "year" = true → t.hasCol "DOY" = true →
      t.hasCol "time" = true →
      psFrontOutcome model t = Except.ok PSRun.rejected) ∧
    getInputStructure model = [] ∧
    (∀ (gcode res_form : Int) (dims : ℕ) (readOK : String → Bool) (g0 : GVal),
      imageFront model gcode res_form dims readOK g0 =
        Except.error (PyErr.nameError "field")) ∧
    (∀ (C : Collab) (n : ℕ) (cfg : Config) (gArr : Fin n → RVal)
      (resKN : List (String × (Fin n → RVal))) (d : InData n)
      (mask : Fin n → RVal) (k : Fin n), cfg.model = model →
      noVegOf d k = true → mask k = RVal.fin 1 →
      (runTSEB C cfg gArr resKN d mask).LE_S1 k =
        (C.OSEB (osebArgsOf C cfg gArr d k)).LE_S1 ∧
      (osebArgsOf C cfg gArr d k).T_S_K = d.T_S k) ∧
    (∀ (C : Collab) (n : ℕ) (cfg : Config) (gArr : Fin n → RVal)
      (resKN : List (String × (Fin n → RVal))) (d : InData n)
      (mask : Fin n → RVal) (k : Fin n), cfg.model = model →
      iVegOf d mask k = true →
      (runTSEB C cfg gArr resKN d mask).LE_C1 k = RVal.nan ∧
      (runTSEB C cfg gArr resKN d mask).LE_S1 k = RVal.nan ∧
      (runTSEB C cfg gArr resKN d mask).H_C1 k = RVal.nan ∧
      (runTSEB C cfg gArr resKN d mask).H_S1 k = RVal.nan ∧
      (runTSEB C cfg gArr resKN d mask).flag k = RVal.nan) := by
  refine ⟨?_, ?_, ?_, ?_, ?_⟩
  · intro t hy hD hti
    have hmiss : requiredDataPresent model t = false := by
      simp [requiredDataPresent, hm1, hm2, hm3]
    unfold psFrontOutcome
    simp [hy, hD, hti, hmiss]
  · simp [getInputStructure, hm1, hm2, hm3]
  · intro gcode res_form dims readOK g0
    unfold imageFront
    have hempty : getInputStructure model = [] := by
      simp [getInputStructure, hm1, hm2, hm3]
    rw [hempty]
  · intro C n cfg gArr resKN d mask k hcfg hveg hmask
    have hmodelPT : cfg.model ≠ "TSEB_PT" := by rw [hcfg]; exact hm1
    have hmodelDTD : cfg.model ≠ "DTD" := by rw [hcfg]; exact hm2
    constructor
    · exact (bareSoilOseb C cfg gArr resKN d mask k hveg hmask).2.2.1
    · simp [osebArgsOf, tSKOf, hmodelPT, hmodelDTD]
  · intro C n cfg gArr resKN d mask k hcfg hiVeg
    have hnone : vegUpdOf C cfg gArr resKN d mask k = none := by
      simp [vegUpdOf, hcfg, hm1, hm2, hm3]
    have hnv : noVegOf d k = false := by
      cases hnn : noVegOf d k with
      | false => rfl
      | true => simp [iVegOf, hnn] at hiVeg
    have hiS : iSoilOf d mask k = false := by
      simp [iSoilOf, hnv]
    refine ⟨?_, ?_, ?_, ?_, ?_⟩ <;>
      simp [runTSEB, calcBulkFluxes, runTSEBPre, hnone, maskedVal, soilVal, hiS]

/-- Witness for C5: the concrete unknown selector `"XSEB"` is rejected
by the point-series boundary check, has an empty image input structure,
and crashes the image path with the unbound-`field` `NameError`. -/
theorem claim_C5_witness :
    psFrontOutcome "XSEB" tblFull = Except.ok PSRun.rejected ∧
    getInputStructure "XSEB" = [] ∧
    imageFront "XSEB" 0 0 2 (fun _ => true) (GVal.scalar (RVal.fin 1)) =
      Except.error (PyErr.nameError "field") := by
  have h := claim_C5_amended "XSEB" (by decide) (by decide) (by decide)
  exact ⟨h.1 tblFull rfl rfl rfl, h.2.1,
    h.2.2.1 0 0 2 (fun _ => true) (GVal.scalar (RVal.fin 1))⟩

/-- Counterexample for C5: calling `run_TSEB` itself with the unknown
selector `"XSEB"` still produces a bare-soil flux — `LE_S1` of a
bare-soil element is the OSEB value `2`, not an untouched NaN — so it is
not true that no per-element flux output is produced for any element. -/
theorem claim_C5_counterexample :
    cfgBogus.model = "XSEB" ∧
    (runTSEB collabFix cfgBogus (gFix 1) [] inBare (maskOne 1)).LE_S1 0 =
      RVal.fin 2 ∧
    RVal.fin 2 ≠ RVal.nan := by
  refine ⟨rfl, ?_, by simp⟩
  have hveg : noVegOf inBare 0 = true := by
    simp [noVegOf, inBare, dataConst, RVal.le, RVal.isnan]
  have h := bareSoilOseb collabFix cfgBogus (gFix 1) [] inBare (maskOne 1) 0
    hveg rfl
  rw [h.2.2.1]
  rfl

/-- `np.ones * (np.ones * g) = np.ones * g`: broadcasting by ones is a
projection, so the `G_form` ratio update reaches a fixed point after one
call. -/
theorem onesMul_idem (dims : ℕ) (g : GVal) :
    onesMul dims (onesMul dims g) = onesMul dims g := by
  cases g with
  | scalar x => simp [onesMul, List.map_replicate, RVal.one_mul_val]
  | arr xs => simp [onesMul, List.map_map, Function.comp, RVal.one_mul_val]

/-- The point-series `G_form` update is idempotent for every form code. -/
theorem psUpdateG_idem (t : Table) (dims : ℕ) (gcode : Int) (g : GVal) :
    psUpdateG t dims gcode (psUpdateG t dims gcode g) =
      psUpdateG t dims gcode g := by
  unfold psUpdateG
  split_ifs <;> first | rfl | exact onesMul_idem dims g

/-- The whole per-call state mutation of `run_TSEB_point_series_array`
is idempotent: the second call sees exactly the state it leaves. -/
theorem psStep_idem (p : PSParams) (t : Table) (s : PSState) :
    psStep p t (psStep p t s) = psStep p t s := by
  cases s with
  | mk gcode gval res_form resParams =>
      unfold psStep
      simp only [psUpdateG_idem]
      split_ifs <;> rfl

/-- C3 (amended): `run_TSEB_point_series_array` is idempotent — the
mutated instance state (`self.G_form[1]`, `self.res_params`) reaches a
fixed point after the first call, so any output computed from the input
table and the post-update state (in particular the `run_TSEB` outputs
and the CSV contents) is the same on a second invocation with the same
inputs.  The image path is not idempotent for the constant/ratio G forms
— see the counterexample. -/
theorem claim_C3_amended {α : Type} (F : PSState → α) (p : PSParams)
    (t : Table) (s : PSState) :
    F (psStep p t (psStep p t s)) = F (psStep p t s) :=
  congrArg F (psStep_idem p t s)

/-- Counterexample for C3: `run_TSEB_local_image` with the constant-G
form (`G_form[0][0] = 0`) on a 2-pixel image succeeds on the first call
— overwriting `self.G_form[1]` with a numpy array — and the second call
then feeds that array to `float()` inside `_open_GDAL_image`, raising an
uncaught `TypeError`: the second invocation does not return the first
call's outputs. -/
theorem claim_C3_counterexample :
    (∃ st : LoopState, imageFront "TSEB_PT" 0 0 2 (fun _ => true)
      (GVal.scalar (RVal.fin (7/20))) = Except.ok (LoopStep.cont st)) ∧
    imageFront "TSEB_PT" 0 0 2 (fun _ => true)
      (gvalAfter (imageFront "TSEB_PT" 0 0 2 (fun _ => true)
        (GVal.scalar (RVal.fin (7/20))))) = Except.error PyErr.typeError := by
  exact ⟨⟨_, rfl⟩, rfl⟩

set_option maxHeartbeats 4000000 in
/-- C6: with the Santanello-and-Friedl (time-phase) soil-heat-flux form
selected, the image path always raises an uncaught `KeyError('time')`:
the field loop stores the observation-time raster in the local
`temp_data` (line 146), yet the `G` branch executes
`self.G_form[1] = in_data['time']` (line 172), a lookup in `in_data`,
which never holds a `time` key — even when every raster reads
successfully.  The point-series path, by contrast, does hand the `time`
column to the estimator (line 369). -/
theorem claim_C6_bug (t : Table) (dims2 : ℕ) (g1 : GVal) :
    imageFront "TSEB_PT" 2 0 2 (fun _ => true) (GVal.scalar (RVal.fin 1)) =
      Except.error (PyErr.keyError "time") ∧
    imageFront "DTD" 2 0 2 (fun _ => true) (GVal.scalar (RVal.fin 1)) =
      Except.error (PyErr.keyError "time") ∧
    psUpdateG t dims2 2 g1 = GVal.arr (t.getCol "time") := by
  exact ⟨rfl, rfl, rfl⟩
